import Mathlib

/-!
# User-process boundary of the kernel: system-call layer

A shallow embedding of `src/userprog/syscall.c` and `src/userprog/syscall_handlers.c`
(memory validation, system-call dispatch, descriptor-based file operations, the IPC
mailbox and the usage counters) and of `src/userprog/process.c` (process creation and the
loader), followed by theorems about the embedded functions.

Conventions of the embedding.

* Addresses are natural numbers; the machine is 32-bit, so pointer arithmetic that the
  source performs on a user-supplied pointer is reduced modulo `2 ^ 32 = 4294967296`.
* A C `int` is an `Int`; `unsigned`/`uint32_t`/`size_t` values are `Nat`. The casts between
  them are `to_unsigned` and `to_int`.
* `terminate_process` never returns to its caller (it ends in `thread_exit`). A function
  that may call it returns an `Outcome`: either it returned normally with a value, or the
  process was terminated with a status.
* A read of a word through a user pointer covers its four bytes; when one of them is an
  unmapped user address the kernel takes a page fault, which is an outcome of its own.
* Loops are written with the loop condition of the source; they recurse on the loop
  variable and terminate because the distance to the loop bound decreases.
* A call that waits for another thread (`sema_down` on a synchronizer that the child
  signals) either never ends, and the function is `none`, or ends in a state that the
  environment supplies.
-/

namespace Pintos

/-! ## Machine integers -/

/-- Conversion of an `int` to `unsigned` (also the cast of an `int` to a pointer). -/
def to_unsigned (x : Int) : Nat := (x % 4294967296).toNat

/-- Conversion of an `unsigned` (or of a pointer) to `int`. -/
def to_int (n : Nat) : Int :=
  if n % 4294967296 < 2147483648 then ((n % 4294967296 : Nat) : Int)
  else ((n % 4294967296 : Nat) : Int) - 4294967296

/-! ## Constants of `syscall.c` / `syscall.h` -/

/-- Constant `const int CLOSE_ALL = -1;` -/
def CLOSE_ALL : Int := -1
/-- Constant `const int ERROR = -1;` -/
def ERROR : Int := -1
/-- Constant `const int NOT_LOADED = 0;` -/
def NOT_LOADED : Int := 0
/-- Constant `const int LOAD_SUCCESS = 1;` -/
def LOAD_SUCCESS : Int := 1
/-- Constant `const int LOAD_FAIL = 2;` -/
def LOAD_FAIL : Int := 2
/-- Macro `#define SYS_IPC_SEND 100` -/
def SYS_IPC_SEND : Int := 100
/-- Macro `#define SYS_IPC_RECEIVE 101` -/
def SYS_IPC_RECEIVE : Int := 101
/-- Macro `#define SYSCALL_MAX 20` -/
def SYSCALL_MAX : Int := 20
/-- Macro `#define STDIN 0` -/
def STDIN : Int := 0
/-- Macro `#define STDOUT 1` -/
def STDOUT : Int := 1

/-! ## Control outcome -/

/-- Result of running code that may call `terminate_process`: the code returned normally
with a value, or `terminate_process status` was reached and control never came back. -/
inductive Outcome (α : Type) where
  | returned (value : α)
  | terminated (status : Int)

/-! ## User address space and the memory validator (`syscall.c`) -/

/-- The address space of the running thread, as the validator sees it. The paging
collaborator and the kernel/user split are absent from the embedded files and are taken
as parameters: `PHYS_BASE` is the kernel/user split, `pagedir_get_page a` is
`pagedir_get_page (thread_current ()->pagedir, a)` (`none` for `NULL`), `byte_at a` is the
`char` and `int_at a` the `int` that a dereference of user address `a` reads. -/
structure AddressSpace where
  PHYS_BASE : Nat
  pagedir_get_page : Nat → Option Nat
  byte_at : Nat → Nat
  int_at : Nat → Int

/-- Modelled from the spec: `is_user_vaddr` (of `threads/vaddr.h`, absent from the embedded
files) holds of the addresses "in the user address range (below the kernel/user split)". -/
def is_user_vaddr (as : AddressSpace) (vaddr : Nat) : Bool :=
  decide (vaddr < as.PHYS_BASE)

/-- Function `bool is_valid_pointer (const void *vaddr)`. -/
def is_valid_pointer (as : AddressSpace) (vaddr : Nat) : Bool :=
  vaddr != 0 &&
  is_user_vaddr as vaddr &&
  (as.pagedir_get_page vaddr != none)

/-- The loop of `validate_buffer`, entered with loop variable `i`:
`for (; i < size; i++) if (!is_valid_pointer (&buf[i])) terminate_process (ERROR);`. -/
def validate_buffer_from (as : AddressSpace) (buffer size i : Nat) : Outcome Unit :=
  if i < size then
    if !is_valid_pointer as ((buffer + i) % 4294967296) then
      Outcome.terminated ERROR
    else
      validate_buffer_from as buffer size (i + 1)
  else
    Outcome.returned ()
termination_by size - i

/-- Function `void validate_buffer (void *buffer, unsigned size)`. -/
def validate_buffer (as : AddressSpace) (buffer size : Nat) : Outcome Unit :=
  validate_buffer_from as buffer size 0

/-- The loop of `validate_string`, at pointer `s`:
`for (; is_valid_pointer (s) && *s != 0; s++) ;`. The body is empty and nothing follows the
loop, so every way out of it returns. The increment cannot wrap while the loop runs: it is
applied only to a validated `s`, which lies below the kernel/user split. -/
def validate_string_from (as : AddressSpace) (s : Nat) : Outcome Unit :=
  if is_valid_pointer as s && as.byte_at s != 0 then
    validate_string_from as (s + 1)
  else
    Outcome.returned ()
termination_by as.PHYS_BASE - s
decreasing_by
  simp_wf
  rename_i h
  simp [is_valid_pointer, is_user_vaddr] at h
  omega

/-- Function `void validate_string (const void *str)`. -/
def validate_string (as : AddressSpace) (str : Nat) : Outcome Unit :=
  validate_string_from as str

/-- Function `int convert_user_vaddr (const void *vaddr)`. -/
def convert_user_vaddr (as : AddressSpace) (vaddr : Nat) : Outcome Int :=
  if !is_valid_pointer as vaddr then
    Outcome.terminated ERROR
  else
    match as.pagedir_get_page vaddr with
    | none => Outcome.terminated ERROR
    | some ptr => Outcome.returned (to_int ptr)

/-! ## Kernel state seen by the system-call layer -/

/-- Calls that the system-call layer and the process layer make to their collaborators
(lock, filesystem, console, page allocator, thread service, synchronizers), in the order
they are made. -/
inductive Event where
  | lock_acquire
  | lock_release
  | file_length (file : Nat)
  | file_read (file buffer size : Nat)
  | file_write (file buffer size : Nat)
  | file_seek (file position : Nat)
  | file_tell (file : Nat)
  | input_getc
  | store_byte (addr value : Nat)
  | putbuf (buffer size : Nat)
  | exit_message (name : String) (status : Int)
  | thread_exit
  | shutdown_power_off
  | filesys_create (name initial_size : Nat)
  | filesys_remove (name : Nat)
  | filesys_open (name : Nat)
  | file_close (file : Nat)
  | palloc_get_page
  | palloc_free_page (page : Nat)
  | strlcpy (dst src : Nat)
  | thread_create (name aux : Nat)
  | sema_down_start
  | sema_down_load (pid : Int)
  | printf_error
  deriving DecidableEq

/-- Modelled from the spec: the process record (`struct child_process` of
`threads/thread.h`, absent from the embedded files) with the fields the system-call layer
touches: "process id, exit status, load status". -/
structure child_process where
  pid : Int
  status : Int
  load : Int
  deriving DecidableEq

/-- Descriptor entry `struct process_file` of `process.h`: descriptor number and file handle
(a non-null `struct file *`). -/
structure process_file where
  fd : Int
  file : Nat
  deriving DecidableEq

/-- Modelled from the spec: the thread extension (`struct thread` of `threads/thread.h`,
absent from the embedded files) with the fields the system-call layer touches: its name, "a
pointer to its own child_process node as seen by its parent" (`none` for `NULL`), "a list
of process_file entries it owns" and "a list of child_process entries for its own
children". -/
structure thread where
  name : String
  cp : Option child_process
  file_list : List process_file
  child_list : List child_process
  deriving DecidableEq

/-- The kernel state the system-call layer reads and writes: the running thread
(`thread_current ()`) and the collaborator calls made so far. -/
structure Kernel where
  cur : thread
  trace : List Event
  deriving DecidableEq

/-- Record one collaborator call. -/
def Kernel.log (k : Kernel) (e : Event) : Kernel :=
  { k with trace := k.trace ++ [e] }

/-- Results of the filesystem and console collaborators (`filesys/file.h`,
`devices/input.h`, absent from the embedded files), taken as parameters. A result may depend
on every call made before it, so each is a function of the trace at the time of the call. -/
structure Collaborators where
  file_length : List Event → Nat → Int
  file_read : List Event → Nat → Nat → Nat → Int
  file_write : List Event → Nat → Nat → Nat → Int
  file_tell : List Event → Nat → Int
  input_getc : List Event → Nat

/-- The trap frame `struct intr_frame` (`threads/interrupt.h`), with the two fields the
system-call layer uses: the user stack pointer and the result register. -/
structure intr_frame where
  esp : Nat
  eax : Nat
  deriving DecidableEq

/-- State in which a system-call handler leaves the machine: the trap frame, the kernel
state, and `exited = some status` when the handler ended in `terminate_process (status)`
instead of returning. -/
structure Handled where
  frame : intr_frame
  kernel : Kernel
  exited : Option Int
  deriving DecidableEq

/-! ## Refactored system call functions (`syscall_handlers.c`) -/

/-- Function `void halt_system (void)`: `shutdown_power_off ()`, which does not return. -/
def halt_system (k : Kernel) : Kernel :=
  k.log Event.shutdown_power_off

/-- Function `void terminate_process (int status_code)`: stores the status in the thread's
process record when it has one, prints the exit message and ends in `thread_exit ()`. -/
def terminate_process (status_code : Int) (f : intr_frame) (k : Kernel) : Handled :=
  let current_thread : thread :=
    match k.cur.cp with
    | some cp => { k.cur with cp := some { cp with status := status_code } }
    | none => k.cur
  { frame := f
    kernel :=
      { cur := current_thread
        trace := k.trace ++ [Event.exit_message current_thread.name status_code,
                             Event.thread_exit] }
    exited := some status_code }

/-- Modelled from the spec: `current_process_get_file` (declared in `process.h`, its
definition absent from the embedded files) is the descriptor table's `get_file`: "linear
lookup by descriptor, owner-scoped"; the result is the file handle of the entry, `none`
(`NULL`) without an entry. -/
def current_process_get_file (fd : Int) (t : thread) : Option Nat :=
  match t.file_list.find? (fun pf => pf.fd == fd) with
  | some pf => some pf.file
  | none => none

/-- Function `static struct file *fetch_file_with_lock (int fd, struct thread *cur_thread)`. -/
def fetch_file_with_lock (fd : Int) (k : Kernel) : Option Nat × Kernel :=
  match current_process_get_file fd k.cur with
  | some file_ptr => (some file_ptr, k.log Event.lock_acquire)
  | none => (none, k)

/-- Function `static void unlock_file_lock ()`. -/
def unlock_file_lock (k : Kernel) : Kernel :=
  k.log Event.lock_release

/-- Function `int get_file_size (int fd)`. -/
def get_file_size (env : Collaborators) (fd : Int) (k : Kernel) : Int × Kernel :=
  match fetch_file_with_lock fd k with
  | (none, k1) => (ERROR, k1)
  | (some file_ptr, k1) =>
    let length := env.file_length k1.trace file_ptr
    (length, unlock_file_lock (k1.log (Event.file_length file_ptr)))

/-- The console loop of `read_from_file`, entered with loop variable `i`:
`for (; i < size; i++) temp_buffer[i] = input_getc ();` (a `uint8_t` store). -/
def read_console_from (env : Collaborators) (buffer size i : Nat) (k : Kernel) : Kernel :=
  if i < size then
    let c := env.input_getc k.trace
    read_console_from env buffer size (i + 1)
      ((k.log Event.input_getc).log (Event.store_byte ((buffer + i) % 4294967296) (c % 256)))
  else
    k
termination_by size - i

/-- Function `int read_from_file (int fd, void *buffer, unsigned size)`. -/
def read_from_file (env : Collaborators) (fd : Int) (buffer size : Nat) (k : Kernel) :
    Int × Kernel :=
  if fd = STDIN then
    (to_int size, read_console_from env buffer size 0 k)
  else
    match fetch_file_with_lock fd k with
    | (none, k1) => (ERROR, k1)
    | (some file_ptr, k1) =>
      let bytes_read := env.file_read k1.trace file_ptr buffer size
      (bytes_read, unlock_file_lock (k1.log (Event.file_read file_ptr buffer size)))

/-- Function `int write_to_file (int fd, const void *buffer, unsigned size)`. -/
def write_to_file (env : Collaborators) (fd : Int) (buffer size : Nat) (k : Kernel) :
    Int × Kernel :=
  if fd = STDOUT then
    (to_int size, k.log (Event.putbuf buffer size))
  else
    match fetch_file_with_lock fd k with
    | (none, k1) => (ERROR, k1)
    | (some file_ptr, k1) =>
      let bytes_written := env.file_write k1.trace file_ptr buffer size
      (bytes_written, unlock_file_lock (k1.log (Event.file_write file_ptr buffer size)))

/-- Function `void set_file_position (int fd, unsigned position)`. -/
def set_file_position (fd : Int) (position : Nat) (k : Kernel) : Kernel :=
  match fetch_file_with_lock fd k with
  | (some file_ptr, k1) => unlock_file_lock (k1.log (Event.file_seek file_ptr position))
  | (none, k1) => k1

/-- Function `unsigned get_file_position (int fd)`; `return ERROR;` converts the `int`
constant to the `unsigned` return type. -/
def get_file_position (env : Collaborators) (fd : Int) (k : Kernel) : Nat × Kernel :=
  match fetch_file_with_lock fd k with
  | (none, k1) => (to_unsigned ERROR, k1)
  | (some file_ptr, k1) =>
    let position := to_unsigned (env.file_tell k1.trace file_ptr)
    (position, unlock_file_lock (k1.log (Event.file_tell file_ptr)))

/-! ## System-call handlers and the handler table (`syscall_handlers.c`) -/

/-- The system-call numbers `SYS_HALT` ... `SYS_CLOSE`. They come from `<syscall-nr.h>`,
absent from the embedded files, and are taken as parameters. -/
structure SyscallNr where
  SYS_HALT : Int
  SYS_EXIT : Int
  SYS_EXEC : Int
  SYS_WAIT : Int
  SYS_CREATE : Int
  SYS_REMOVE : Int
  SYS_OPEN : Int
  SYS_FILESIZE : Int
  SYS_READ : Int
  SYS_WRITE : Int
  SYS_SEEK : Int
  SYS_TELL : Int
  SYS_CLOSE : Int

/-- The thirteen system-call numbers, in the order of the spec's list of operations. -/
def SyscallNr.codes (nr : SyscallNr) : List Int :=
  [nr.SYS_HALT, nr.SYS_EXIT, nr.SYS_EXEC, nr.SYS_WAIT, nr.SYS_CREATE, nr.SYS_REMOVE,
   nr.SYS_OPEN, nr.SYS_FILESIZE, nr.SYS_READ, nr.SYS_WRITE, nr.SYS_SEEK, nr.SYS_TELL,
   nr.SYS_CLOSE]

/-- The operations that the handlers wrap (`execute_program`, `wait_for_program`,
`create_file`, ... of `syscall.h`). At the level of the handlers each is a call that takes
the kernel state to a result and a new kernel state; the handlers are embedded for
arbitrary such operations, so what is proved of a handler holds whatever the operations
do. -/
structure Operations where
  execute_program : Nat → Kernel → Int × Kernel
  wait_for_program : Int → Kernel → Int × Kernel
  create_file : Nat → Nat → Kernel → Bool × Kernel
  open_file : Nat → Kernel → Int × Kernel
  get_file_size : Int → Kernel → Int × Kernel
  read_from_file : Int → Nat → Nat → Kernel → Int × Kernel
  write_to_file : Int → Nat → Nat → Kernel → Int × Kernel
  set_file_position : Int → Nat → Kernel → Kernel
  get_file_position : Int → Kernel → Nat × Kernel
  close_file : Int → Kernel → Kernel

/-- Function `void syscall_exit (struct intr_frame *f, int *arg)`. -/
def syscall_exit (_as : AddressSpace) (_ops : Operations) (f : intr_frame) (arg : Nat → Int)
    (k : Kernel) : Handled :=
  terminate_process (arg 0) f k

/-- Function `void syscall_exec (struct intr_frame *f, int *arg)`. -/
def syscall_exec (as : AddressSpace) (ops : Operations) (f : intr_frame) (arg : Nat → Int)
    (k : Kernel) : Handled :=
  match validate_string as (to_unsigned (arg 0)) with
  | Outcome.terminated status => terminate_process status f k
  | Outcome.returned _ =>
    match convert_user_vaddr as (to_unsigned (arg 0)) with
    | Outcome.terminated status => terminate_process status f k
    | Outcome.returned arg0 =>
      let r := ops.execute_program (to_unsigned arg0) k
      { frame := { f with eax := to_unsigned r.1 }, kernel := r.2, exited := none }

/-- Function `void syscall_wait (struct intr_frame *f, int *arg)`. -/
def syscall_wait (_as : AddressSpace) (ops : Operations) (f : intr_frame) (arg : Nat → Int)
    (k : Kernel) : Handled :=
  let r := ops.wait_for_program (arg 0) k
  { frame := { f with eax := to_unsigned r.1 }, kernel := r.2, exited := none }

/-- Function `void syscall_open (struct intr_frame *f, int *arg)`. -/
def syscall_open (as : AddressSpace) (ops : Operations) (f : intr_frame) (arg : Nat → Int)
    (k : Kernel) : Handled :=
  match validate_string as (to_unsigned (arg 0)) with
  | Outcome.terminated status => terminate_process status f k
  | Outcome.returned _ =>
    match convert_user_vaddr as (to_unsigned (arg 0)) with
    | Outcome.terminated status => terminate_process status f k
    | Outcome.returned arg0 =>
      let r := ops.open_file (to_unsigned arg0) k
      { frame := { f with eax := to_unsigned r.1 }, kernel := r.2, exited := none }

/-- Function `void syscall_filesize (struct intr_frame *f, int *arg)`. -/
def syscall_filesize (_as : AddressSpace) (ops : Operations) (f : intr_frame)
    (arg : Nat → Int) (k : Kernel) : Handled :=
  let r := ops.get_file_size (arg 0) k
  { frame := { f with eax := to_unsigned r.1 }, kernel := r.2, exited := none }

/-- Function `void syscall_tell (struct intr_frame *f, int *arg)`. -/
def syscall_tell (_as : AddressSpace) (ops : Operations) (f : intr_frame) (arg : Nat → Int)
    (k : Kernel) : Handled :=
  let r := ops.get_file_position (arg 0) k
  { frame := { f with eax := r.1 % 4294967296 }, kernel := r.2, exited := none }

/-- Function `void syscall_close (struct intr_frame *f, int *arg)`. -/
def syscall_close (_as : AddressSpace) (ops : Operations) (f : intr_frame) (arg : Nat → Int)
    (k : Kernel) : Handled :=
  { frame := f, kernel := ops.close_file (arg 0) k, exited := none }

/-- Function `void syscall_create (struct intr_frame *f, int *arg)`. -/
def syscall_create (as : AddressSpace) (ops : Operations) (f : intr_frame) (arg : Nat → Int)
    (k : Kernel) : Handled :=
  match validate_string as (to_unsigned (arg 0)) with
  | Outcome.terminated status => terminate_process status f k
  | Outcome.returned _ =>
    match convert_user_vaddr as (to_unsigned (arg 0)) with
    | Outcome.terminated status => terminate_process status f k
    | Outcome.returned arg0 =>
      let r := ops.create_file (to_unsigned arg0) (to_unsigned (arg 1)) k
      { frame := { f with eax := if r.1 then 1 else 0 }, kernel := r.2, exited := none }

/-- Function `void syscall_seek (struct intr_frame *f, int *arg)`. -/
def syscall_seek (_as : AddressSpace) (ops : Operations) (f : intr_frame) (arg : Nat → Int)
    (k : Kernel) : Handled :=
  { frame := f, kernel := ops.set_file_position (arg 0) (to_unsigned (arg 1)) k,
    exited := none }

/-- Function `void syscall_read (struct intr_frame *f, int *arg)`. -/
def syscall_read (as : AddressSpace) (ops : Operations) (f : intr_frame) (arg : Nat → Int)
    (k : Kernel) : Handled :=
  match validate_buffer as (to_unsigned (arg 1)) (to_unsigned (arg 2)) with
  | Outcome.terminated status => terminate_process status f k
  | Outcome.returned _ =>
    match convert_user_vaddr as (to_unsigned (arg 1)) with
    | Outcome.terminated status => terminate_process status f k
    | Outcome.returned arg1 =>
      let r := ops.read_from_file (arg 0) (to_unsigned arg1) (to_unsigned (arg 2)) k
      { frame := { f with eax := to_unsigned r.1 }, kernel := r.2, exited := none }

/-- Function `void syscall_write (struct intr_frame *f, int *arg)`. -/
def syscall_write (as : AddressSpace) (ops : Operations) (f : intr_frame) (arg : Nat → Int)
    (k : Kernel) : Handled :=
  match validate_buffer as (to_unsigned (arg 1)) (to_unsigned (arg 2)) with
  | Outcome.terminated status => terminate_process status f k
  | Outcome.returned _ =>
    match convert_user_vaddr as (to_unsigned (arg 1)) with
    | Outcome.terminated status => terminate_process status f k
    | Outcome.returned arg1 =>
      let r := ops.write_to_file (arg 0) (to_unsigned arg1) (to_unsigned (arg 2)) k
      { frame := { f with eax := to_unsigned r.1 }, kernel := r.2, exited := none }

/-- Entry `struct syscall_mapping` of `syscall.h`: a system-call code and the handler
registered for it (the function pointer is the handler function itself). -/
structure syscall_mapping where
  syscall_code : Int
  handler : AddressSpace → Operations → intr_frame → (Nat → Int) → Kernel → Handled

/-- Table `static const struct syscall_mapping syscall_map[]`. -/
def syscall_map (nr : SyscallNr) : List syscall_mapping :=
  [ ⟨nr.SYS_EXIT, syscall_exit⟩,
    ⟨nr.SYS_EXEC, syscall_exec⟩,
    ⟨nr.SYS_WAIT, syscall_wait⟩,
    ⟨nr.SYS_CREATE, syscall_create⟩,
    ⟨nr.SYS_OPEN, syscall_open⟩,
    ⟨nr.SYS_FILESIZE, syscall_filesize⟩,
    ⟨nr.SYS_TELL, syscall_tell⟩,
    ⟨nr.SYS_CLOSE, syscall_close⟩,
    ⟨nr.SYS_SEEK, syscall_seek⟩,
    ⟨nr.SYS_READ, syscall_read⟩,
    ⟨nr.SYS_WRITE, syscall_write⟩ ]

/-- The loop of `call_syscall_handler` over the entries of the table that are still to be
visited: the first entry with the code has its handler called and the function returns;
when no entry is left, `terminate_process (ERROR)`. -/
def call_syscall_handler_from (as : AddressSpace) (ops : Operations)
    (entries : List syscall_mapping) (syscall_code : Int) (f : intr_frame) (arg : Nat → Int)
    (k : Kernel) : Handled :=
  match entries with
  | [] => terminate_process ERROR f k
  | entry :: rest =>
    if entry.syscall_code = syscall_code then
      entry.handler as ops f arg k
    else
      call_syscall_handler_from as ops rest syscall_code f arg k

/-- Function `void call_syscall_handler (int syscall_code, struct intr_frame *f, int *arg)`. -/
def call_syscall_handler (as : AddressSpace) (nr : SyscallNr) (ops : Operations)
    (syscall_code : Int) (f : intr_frame) (arg : Nat → Int) (k : Kernel) : Handled :=
  call_syscall_handler_from as ops (syscall_map nr) syscall_code f arg k

/-! ## Usage counters -/

/-- The two counter arrays of the sources: `static int syscall_usage[SYS_IPC_RECEIVE + 1]`
of `syscall.c` and `int syscall_usage_count[20]` of `syscall_handlers.c`, each as the map
from index to value. The first has file scope in `syscall.c`; the second is written only
by the `track_syscall_usage` of `syscall_handlers.c`. -/
structure Counters where
  syscall_usage : Nat → Int
  syscall_usage_count : Nat → Int

/-- Function `static void track_syscall_usage (int syscall_code)` of `syscall.c`. -/
def track_syscall_usage (syscall_code : Int) (c : Counters) : Counters :=
  if syscall_code ≥ 0 ∧ syscall_code ≤ SYS_IPC_RECEIVE then
    let i := syscall_code.toNat
    { c with syscall_usage := Function.update c.syscall_usage i (c.syscall_usage i + 1) }
  else
    c

/-- Function `static void track_syscall_usage (int syscall_code)` of `syscall_handlers.c`,
a second function of that name with file scope there. Nothing in the sources calls it
except the `syscall_handler` of `syscall_handlers.c`, which is itself never registered. -/
def handlers_track_syscall_usage (syscall_code : Int) (c : Counters) : Counters :=
  if syscall_code ≥ 0 ∧ syscall_code < 20 then
    let i := syscall_code.toNat
    { c with
      syscall_usage_count := Function.update c.syscall_usage_count i (c.syscall_usage_count i + 1) }
  else
    c

/-- The loop of `report_syscall_metrics`, entered with loop variable `i`:
`for (; i < count; i++) buffer[i] = syscall_usage_count[i];`. -/
def report_syscall_metrics_from (c : Counters) (buffer : Nat → Int) (count : Int) (i : Nat) :
    Nat → Int :=
  if (i : Int) < count then
    report_syscall_metrics_from c (Function.update buffer i (c.syscall_usage_count i))
      count (i + 1)
  else
    buffer
termination_by (count - i).toNat
decreasing_by
  simp_wf
  omega

/-- Function `void report_syscall_metrics (int *buffer, int size)`; the buffer is `none` for
`NULL` and otherwise the array that `buffer` points to, which the function returns as it
leaves it. -/
def report_syscall_metrics (c : Counters) (buffer : Option (Nat → Int)) (size : Int) :
    Option (Nat → Int) :=
  match buffer with
  | none => none
  | some b =>
    if size ≤ 0 then
      some b
    else
      let count := if size < SYSCALL_MAX then size else SYSCALL_MAX
      some (report_syscall_metrics_from c b count 0)

/-! ## System-call entry (`syscall.c`) -/

/-- Function `static int num_syscall_args (int syscall_code)`; the `switch` is the chain of
its groups of `case` labels in the order of the source. -/
def num_syscall_args (nr : SyscallNr) (syscall_code : Int) : Int :=
  if syscall_code = nr.SYS_HALT ∨ syscall_code = nr.SYS_EXIT ∨ syscall_code = nr.SYS_EXEC ∨
      syscall_code = nr.SYS_WAIT ∨ syscall_code = nr.SYS_REMOVE ∨
      syscall_code = nr.SYS_OPEN ∨ syscall_code = nr.SYS_FILESIZE ∨
      syscall_code = nr.SYS_TELL ∨ syscall_code = nr.SYS_CLOSE then
    1
  else if syscall_code = nr.SYS_CREATE ∨ syscall_code = nr.SYS_SEEK then
    2
  else if syscall_code = nr.SYS_READ ∨ syscall_code = nr.SYS_WRITE then
    3
  else
    0

/-- The kernel cannot read the byte at address `b`: it is a user address that the page table
of the running thread does not map, so that the access takes a page fault. An address at
or above the kernel/user split is kernel memory, which the kernel reads. -/
def byte_faults (as : AddressSpace) (b : Nat) : Bool :=
  is_user_vaddr as b && (as.pagedir_get_page b == none)

/-- The read `*esp` of an `int` through the user pointer `esp`: the access covers the four
bytes from `esp` on; the result is `none` when one of them takes a page fault, and the
`int` stored at `esp` otherwise. -/
def read_int (as : AddressSpace) (esp : Nat) : Option Int :=
  if byte_faults as esp || byte_faults as ((esp + 1) % 4294967296) ||
      byte_faults as ((esp + 2) % 4294967296) || byte_faults as ((esp + 3) % 4294967296) then
    none
  else
    some (as.int_at esp)

/-- Result of `load_syscall_args`: it returned with the array `arg` as it leaves it, or it
ended in `terminate_process (status)`, or the read of the slot at `addr` took a page fault
in the kernel. -/
inductive Loaded where
  | returned (arg : Nat → Int)
  | terminated (status : Int)
  | faulted (addr : Nat)

/-- The loop of `load_syscall_args`, entered with loop variable `i`:
`for (; i < n; i++) { int *esp = (int *) f->esp + i + 1; if (!is_valid_pointer (esp))
terminate_process (ERROR); arg[i] = *esp; }`. The test is on the one address `esp`, the
read that follows it is of the four bytes of the `int`. -/
def load_syscall_args_from (as : AddressSpace) (f : intr_frame) (arg : Nat → Int) (n : Int)
    (i : Nat) : Loaded :=
  if (i : Int) < n then
    let esp := (f.esp + 4 * (i + 1)) % 4294967296
    if !is_valid_pointer as esp then
      Loaded.terminated ERROR
    else
      match read_int as esp with
      | none => Loaded.faulted esp
      | some word => load_syscall_args_from as f (Function.update arg i word) n (i + 1)
  else
    Loaded.returned arg
termination_by (n - i).toNat
decreasing_by
  simp_wf
  omega

/-- Function `static void load_syscall_args (struct intr_frame *f, int *arg, int n)`. -/
def load_syscall_args (as : AddressSpace) (f : intr_frame) (arg : Nat → Int) (n : Int) :
    Loaded :=
  load_syscall_args_from as f arg n 0

/-- State in which `syscall_handler` leaves the machine: the usage counters, what the
dispatch left of the trap frame and the kernel state, and `faulted = some addr` when the
kernel took a page fault on its read of the user stack at `addr`; `handled` is then the
state at the fault, no handler having run. -/
structure Dispatched where
  counters : Counters
  handled : Handled
  faulted : Option Nat

/-- Function `static void syscall_handler (struct intr_frame *f)` of `syscall.c`, the handler
that `syscall_init` registers for interrupt `0x30`. `arg` is the content of the local array
`int arg[3]` on entry, which the source leaves uninitialised. The test on the stack pointer
is on the one address `esp`, the read `*esp` that follows it is of the four bytes of the
`int`. -/
def syscall_handler (as : AddressSpace) (nr : SyscallNr) (ops : Operations) (arg : Nat → Int)
    (f : intr_frame) (c : Counters) (k : Kernel) : Dispatched :=
  if !is_valid_pointer as f.esp then
    { counters := c, handled := terminate_process ERROR f k, faulted := none }
  else
    match read_int as f.esp with
    | none =>
      { counters := c, handled := { frame := f, kernel := k, exited := none },
        faulted := some f.esp }
    | some syscall_code =>
      let arg_count := num_syscall_args nr syscall_code
      let c1 := track_syscall_usage syscall_code c
      match load_syscall_args as f arg arg_count with
      | Loaded.terminated status =>
        { counters := c1, handled := terminate_process status f k, faulted := none }
      | Loaded.faulted addr =>
        { counters := c1, handled := { frame := f, kernel := k, exited := none },
          faulted := some addr }
      | Loaded.returned arg1 =>
        { counters := c1, handled := call_syscall_handler as nr ops syscall_code f arg1 k,
          faulted := none }

/-! ## IPC mailbox (`syscall_handlers.c`) -/

/-- Modelled from the spec: the mailbox `shared_ipc_buffer`, whose declaration is absent
from the embedded files: "a fixed-size byte array plus one counting synchronizer initialized
to 1".
`data i` is the byte at index `i` of the array, `sema` the value of the synchronizer. The
capacity of the array, `IPC_BUFFER_SIZE`, is a parameter of the functions that use it. -/
structure ipc_buffer where
  data : Nat → Nat
  sema : Nat

/-- Modelled from the spec: `sema_down` of the synchronization collaborator, "down (block
until count>0, then decrement)"; `none` when the caller blocks. -/
def sema_down (value : Nat) : Option Nat :=
  if value = 0 then none else some (value - 1)

/-- Modelled from the spec: `sema_up` of the synchronization collaborator, "up (increment,
wake one waiter)". -/
def sema_up (value : Nat) : Nat :=
  value + 1

/-- The loop of `ipc_send_message`, entered with index `i`:
`while (i < IPC_BUFFER_SIZE - 1 && message[i] != 0) { data[i] = message[i]; i++; }`.
The result is the array and the index as the loop leaves them. -/
def ipc_send_from (IPC_BUFFER_SIZE : Nat) (message data : Nat → Nat) (i : Nat) :
    (Nat → Nat) × Nat :=
  if i < IPC_BUFFER_SIZE - 1 ∧ message i ≠ 0 then
    ipc_send_from IPC_BUFFER_SIZE message (Function.update data i (message i)) (i + 1)
  else
    (data, i)
termination_by IPC_BUFFER_SIZE - 1 - i
decreasing_by
  simp_wf
  omega

/-- Function `void ipc_send_message (const char *message)`; `message i` is the byte
`message[i]`. The result is `none` when the caller blocks on the mailbox gate. -/
def ipc_send_message (IPC_BUFFER_SIZE : Nat) (message : Nat → Nat) (b : ipc_buffer) :
    Option ipc_buffer :=
  match sema_down b.sema with
  | none => none
  | some s =>
    let r := ipc_send_from IPC_BUFFER_SIZE message b.data 0
    some { data := Function.update r.1 r.2 0, sema := sema_up s }

/-- The loop of `ipc_receive_message`, entered with index `i`; `bound` is the value of the
`size_t` expression `size - 1`:
`while (i < size - 1 && data[i] != 0) { buffer[i] = data[i]; i++; }`.
The result is the caller's buffer and the index as the loop leaves them. -/
def ipc_receive_from (data buffer : Nat → Nat) (bound i : Nat) : (Nat → Nat) × Nat :=
  if i < bound ∧ data i ≠ 0 then
    ipc_receive_from data (Function.update buffer i (data i)) bound (i + 1)
  else
    (buffer, i)
termination_by bound - i
decreasing_by
  simp_wf
  omega

/-- Function `void ipc_receive_message (char *buffer, size_t size)`; `buffer i` is the byte
`buffer[i]` of the caller's memory, and `size - 1` is computed in the 32-bit unsigned type
`size_t`. The result is `none` when the caller blocks on the mailbox gate. -/
def ipc_receive_message (buffer : Nat → Nat) (size : Nat) (b : ipc_buffer) :
    Option ((Nat → Nat) × ipc_buffer) :=
  match sema_down b.sema with
  | none => none
  | some s =>
    let r := ipc_receive_from b.data buffer ((size + 4294967295) % 4294967296) 0
    some (Function.update r.1 r.2 0, { data := b.data, sema := sema_up s })

/-! ## Concrete inputs used by the witnesses -/

/-- The message "hello" in memory: five non-zero bytes, then NUL bytes. -/
def hello : Nat → Nat :=
  fun j => [104, 101, 108, 108, 111].getD j 0

/-- The mailbox as the kernel starts with it: zeroed array, gate free. -/
def empty_mailbox : ipc_buffer :=
  { data := fun _ => 0, sema := 1 }

/-- An address space with the usual split at `0xc0000000` and a single mapped user page,
`0x08048000 .. 0x08048fff`. Every byte of it reads as the letter `a`; the word at
`0x08048000` is 7, the words in the three slots above it are 3, 134512656 and 16. -/
def one_page_space : AddressSpace :=
  { PHYS_BASE := 3221225472
    pagedir_get_page := fun a =>
      if 134512640 ≤ a ∧ a < 134516736 then some (a - 134512640 + 3222274048) else none
    byte_at := fun _ => 97
    int_at := fun a =>
      if a = 134512640 then 7
      else if a = 134512644 then 3
      else if a = 134512648 then 134512656
      else if a = 134512652 then 16
      else 0 }

/-- The system-call numbers in the order of the spec's list, counted from 0. -/
def standard_nr : SyscallNr :=
  { SYS_HALT := 0, SYS_EXIT := 1, SYS_EXEC := 2, SYS_WAIT := 3, SYS_CREATE := 4,
    SYS_REMOVE := 5, SYS_OPEN := 6, SYS_FILESIZE := 7, SYS_READ := 8, SYS_WRITE := 9,
    SYS_SEEK := 10, SYS_TELL := 11, SYS_CLOSE := 12 }

/-- A kernel state: a thread without a parent's record that owns descriptor 2. -/
def sample_kernel : Kernel :=
  { cur := { name := "main", cp := none, file_list := [{ fd := 2, file := 1000 }],
             child_list := [] }
    trace := [] }

/-- Operations that do nothing and return zero. -/
def idle_operations : Operations :=
  { execute_program := fun _ k => (0, k)
    wait_for_program := fun _ k => (0, k)
    create_file := fun _ _ k => (false, k)
    open_file := fun _ k => (0, k)
    get_file_size := fun _ k => (0, k)
    read_from_file := fun _ _ _ k => (0, k)
    write_to_file := fun _ _ _ k => (0, k)
    set_file_position := fun _ _ k => k
    get_file_position := fun _ k => (0, k)
    close_file := fun _ k => k }

/-- Collaborators whose every call returns zero. -/
def quiet_collaborators : Collaborators :=
  { file_length := fun _ _ => 0
    file_read := fun _ _ _ _ => 0
    file_write := fun _ _ _ _ => 0
    file_tell := fun _ _ => 0
    input_getc := fun _ => 0 }

/-- Usage counters as the kernel starts with them: all zero. -/
def zero_counters : Counters :=
  { syscall_usage := fun _ => 0, syscall_usage_count := fun _ => 0 }

/-! ## File operations by name and `close_file` (`syscall_handlers.c`) -/

/-- Results of the filesystem calls by name (`filesys/filesys.h`, absent from the embedded
files), taken as parameters; each is a function of the trace at the time of the call, and
`filesys_open` gives `none` for `NULL`. -/
structure Filesys where
  filesys_create : List Event → Nat → Nat → Bool
  filesys_remove : List Event → Nat → Bool
  filesys_open : List Event → Nat → Option Nat

/-- Function `bool create_file (const char *filename, unsigned initial_size)`. -/
def create_file (fs : Filesys) (filename initial_size : Nat) (k : Kernel) : Bool × Kernel :=
  let k1 := k.log Event.lock_acquire
  let success := fs.filesys_create k1.trace filename initial_size
  (success, (k1.log (Event.filesys_create filename initial_size)).log Event.lock_release)

/-- Function `bool delete_file (const char *filename)`. -/
def delete_file (fs : Filesys) (filename : Nat) (k : Kernel) : Bool × Kernel :=
  let k1 := k.log Event.lock_acquire
  let success := fs.filesys_remove k1.trace filename
  (success, (k1.log (Event.filesys_remove filename)).log Event.lock_release)

/-- The least descriptor number from `candidate` upwards that no entry of the table uses,
looking at `fuel` candidates at most. -/
def next_unused_fd (table : List process_file) (candidate : Int) : Nat → Int
  | 0 => candidate
  | fuel + 1 =>
    if table.any (fun pf => pf.fd == candidate) then
      next_unused_fd table (candidate + 1) fuel
    else
      candidate

/-- Modelled from the spec: `current_process_add_file` (declared in `process.h`, its
definition absent from the embedded files) is the descriptor table's `add_file`: "assigns
the next unused integer (starting just above the reserved console descriptors) and appends
an entry". The result is the new descriptor and the thread with the entry appended. -/
def current_process_add_file (f : Nat) (t : thread) : Int × thread :=
  let fd := next_unused_fd t.file_list (STDOUT + 1) t.file_list.length
  (fd, { t with file_list := t.file_list ++ [{ fd := fd, file := f }] })

/-- Function `int open_file (const char *filename)`. -/
def open_file (fs : Filesys) (filename : Nat) (k : Kernel) : Int × Kernel :=
  let k1 := k.log Event.lock_acquire
  let file_ptr := fs.filesys_open k1.trace filename
  let k2 := k1.log (Event.filesys_open filename)
  match file_ptr with
  | some f =>
    let r := current_process_add_file f k2.cur
    (r.1, ({ k2 with cur := r.2 } : Kernel).log Event.lock_release)
  | none => (ERROR, k2.log Event.lock_release)

/-- Modelled from the spec: `current_process_close_file` (declared in `process.h`, its
definition absent from the embedded files) is the descriptor table's `close_file`: "if `fd`
equals the reserved "close all" sentinel, closes and frees every entry owned by the process;
otherwise closes and frees the single matching entry". Closing an entry is a `file_close`
of its handle. -/
def current_process_close_file (fd : Int) (k : Kernel) : Kernel :=
  if fd = CLOSE_ALL then
    { cur := { k.cur with file_list := [] }
      trace := k.trace ++ k.cur.file_list.map (fun pf => Event.file_close pf.file) }
  else
    match k.cur.file_list.find? (fun pf => pf.fd == fd) with
    | some pf =>
      { cur := { k.cur with file_list := k.cur.file_list.erase pf }
        trace := k.trace ++ [Event.file_close pf.file] }
    | none => k

/-- Function `void close_file (int fd)`. -/
def close_file (fd : Int) (k : Kernel) : Kernel :=
  (current_process_close_file fd (k.log Event.lock_acquire)).log Event.lock_release

/-! ## The filesystem lock along a trace -/

/-- Walk along a stretch of the trace, counting the acquisitions of `filesys_lock` that are
not yet released, from `held` on entry; `none` when a release comes while none is held. -/
def lock_walk : Nat → List Event → Option Nat
  | held, [] => some held
  | held, Event.lock_acquire :: rest => lock_walk (held + 1) rest
  | held, Event.lock_release :: rest =>
    if held = 0 then none else lock_walk (held - 1) rest
  | held, _ :: rest => lock_walk held rest

/-- The step from kernel state `k` to `k1` is balanced on the filesystem lock: `k1` extends
the trace of `k` by calls among which every acquire is followed by one release of its own and
no release comes without an acquire before it, so that however many acquisitions were
outstanding on entry (none included), as many are at the end. -/
def lock_balanced (k k1 : Kernel) : Prop :=
  ∃ calls, k1.trace = k.trace ++ calls ∧ ∀ held, lock_walk held calls = some held

/-- The mailbox after "hello" was sent: the five bytes and their NUL, gate free. -/
def hello_mailbox : ipc_buffer :=
  { data := hello, sema := 1 }

/-! ## Process creation (`process.c`) and `execute_program` (`syscall_handlers.c`) -/

/-- Answers of the collaborators of process creation (page allocator, thread service,
synchronizers; absent from the embedded files), taken as parameters, each a function of the
trace at the time of the call.
* `palloc_get_page` is the page returned, `none` for `NULL`.
* `thread_create name aux t` is the value returned and the creating thread `t` as the thread
  service leaves it (the service is where a child gets registered with its parent).
* `start_signalled` tells whether the wait on `start_sema` ends, that is, whether the new
  thread gets to signal it.
* `load_signalled cp` is the load status found in the child's record `cp` when the wait on its
  `load_sema` ends, `none` when it never ends. -/
structure ProcessEnv where
  palloc_get_page : List Event → Option Nat
  thread_create : List Event → Nat → Nat → thread → Int × thread
  start_signalled : List Event → Bool
  load_signalled : List Event → child_process → Option Int

/-- Function `bool process_execute (const char *file_name)` of `process.c`; the `bool` result
is the `int` 1 or 0 that its caller stores, and the whole is `none` when the caller never
resumes from `sema_down (&start_sema)`. -/
def process_execute (env : ProcessEnv) (file_name : Nat) (k : Kernel) :
    Option (Int × Kernel) :=
  match env.palloc_get_page k.trace with
  | none => some (0, (k.log Event.palloc_get_page).log Event.printf_error)
  | some fn_copy =>
    let k1 := (k.log Event.palloc_get_page).log (Event.strlcpy fn_copy file_name)
    let created := env.thread_create k1.trace file_name fn_copy k1.cur
    let k2 : Kernel :=
      { cur := created.2, trace := k1.trace ++ [Event.thread_create file_name fn_copy] }
    if created.1 ≠ 0 then
      if env.start_signalled k2.trace then
        some (1, k2.log Event.sema_down_start)
      else
        none
    else
      some (0, k2.log (Event.palloc_free_page fn_copy))

/-- Modelled from the spec: `get_child_process` (declared in `process.h`, its definition
absent from the embedded files) "locates the caller's child_process record for `pid`";
`none` (`NULL`) when the caller has no such record. -/
def get_child_process (pid : Int) (t : thread) : Option child_process :=
  t.child_list.find? (fun cp => cp.pid == pid)

/-- Modelled from the spec: `remove_child_process` (declared in `process.h`, its definition
absent from the embedded files) "discards the child record": the record leaves the child
list of the thread that owns it. -/
def remove_child_process (cp : child_process) (k : Kernel) : Kernel :=
  { k with cur := { k.cur with child_list := k.cur.child_list.erase cp } }

/-- The child list once the first record for `pid` holds load status `load`. -/
def store_load (pid : Int) (load : Int) : List child_process → List child_process
  | [] => []
  | cp :: rest =>
    if cp.pid == pid then { cp with load := load } :: rest
    else cp :: store_load pid load rest

/-- The statement `if (child_proc->load == NOT_LOADED) sema_down (&child_proc->load_sema);` of
`execute_program`: the record as the caller finds it afterwards, with the kernel state, or
`none` when the caller never resumes. While the caller waits the child stores its load
status in the record. -/
def await_load (env : ProcessEnv) (child_proc : child_process) (k : Kernel) :
    Option (child_process × Kernel) :=
  if child_proc.load = NOT_LOADED then
    match env.load_signalled k.trace child_proc with
    | none => none
    | some load =>
      some ({ child_proc with load := load },
            { cur := { k.cur with
                child_list := store_load child_proc.pid load k.cur.child_list }
              trace := k.trace ++ [Event.sema_down_load child_proc.pid] })
  else
    some (child_proc, k)

/-- Function `int execute_program (const char *cmd_line)`; `none` when the caller never
resumes from one of the two waits. -/
def execute_program (env : ProcessEnv) (cmd_line : Nat) (k : Kernel) :
    Option (Int × Kernel) :=
  match process_execute env cmd_line k with
  | none => none
  | some (process_id, k1) =>
    match get_child_process process_id k1.cur with
    | some child_proc =>
      match await_load env child_proc k1 with
      | none => none
      | some (child_proc1, k2) =>
        if child_proc1.load = LOAD_FAIL then
          some (ERROR, remove_child_process child_proc1 k2)
        else
          some (process_id, k2)
    | none => some (ERROR, k1)

/-- Collaborators of process creation for which everything succeeds: a page is available,
the thread service gives the new thread the id 3 (the ids 1 and 2 belong to the initial
thread and the idle thread) and registers a child record with that id with the creating
thread, the new thread signals its start, and its load is found to have succeeded. -/
def third_thread_env : ProcessEnv :=
  { palloc_get_page := fun _ => some 3221229568
    thread_create := fun _ _ _ t =>
      (3, { t with child_list := t.child_list ++ [{ pid := 3, status := 0, load := 1 }] })
    start_signalled := fun _ => true
    load_signalled := fun _ _ => some 1 }

/-! ## Loader (`process.c`) -/

/-- Modelled from the spec: the executable's "fixed-size header" (`struct elf_header`, whose
declaration is absent from the embedded files), with its "magic/identification" and "the
declared number of program (segment) header records". -/
structure elf_header where
  e_ident : List Nat
  e_phnum : Nat
  deriving DecidableEq

/-- Modelled from the spec: a program (segment) header record (`struct program_header`,
whose declaration is absent from the embedded files), with the fields that `load_segment`
and `valid_segment` read. -/
structure program_header where
  p_type : Nat
  p_offset : Nat
  p_vaddr : Nat
  p_filesz : Nat
  p_flags : Nat
  deriving DecidableEq

/-- What the loader takes from outside `process.c`, as parameters: the constants `PT_LOAD`,
`PF_X`, `PF_R`, `USER_VADDR_START`, `USER_VADDR_LIMIT`, `USER_STACK` and the two record sizes
`sizeof ehdr`, `sizeof phdr`; the test `is_elf`; and the answers of the collaborators.
* `filesys_open name` is the file handle, `none` for `NULL`.
* `read_ehdr file` is what `file_read (file, &ehdr, sizeof ehdr)` returns and leaves in `ehdr`.
* `read_phdr file i` is what the `file_read (file, &phdr, sizeof phdr)` of loop round `i`
  returns and leaves in `phdr` (the reads are sequential, so round `i` reads record `i`).
* `palloc_get_page` is the page that `palloc_get_page (PAL_USER)` returns, `none` for `NULL`.
* `pagedir_set_page pd upage kpage writable` tells whether the page table service accepts
  the mapping into page table `pd`. -/
structure Loader where
  PT_LOAD : Nat
  PF_X : Nat
  PF_R : Nat
  USER_VADDR_START : Nat
  USER_VADDR_LIMIT : Nat
  USER_STACK : Nat
  sizeof_ehdr : Int
  sizeof_phdr : Int
  is_elf : elf_header → Bool
  filesys_open : Nat → Option Nat
  read_ehdr : Nat → Int × elf_header
  read_phdr : Nat → Nat → Int × program_header
  palloc_get_page : Option Nat
  pagedir_set_page : (Nat → Option Nat) → Nat → Nat → Bool → Bool

/-- Function `static bool install_page (void *upage, void *kpage, bool writable)`; `pd` is the
page table of the current thread (user page to kernel page, `none` when unmapped), returned
as the function leaves it. -/
def install_page (env : Loader) (pd : Nat → Option Nat) (upage kpage : Nat)
    (writable : Bool) : Bool × (Nat → Option Nat) :=
  if pd upage != none then
    (false, pd)
  else if env.pagedir_set_page pd upage kpage writable then
    (true, Function.update pd upage (some kpage))
  else
    (false, pd)

/-- Function `static bool valid_segment (struct program_header *phdr)`. -/
def valid_segment (env : Loader) (phdr : program_header) : Bool :=
  if phdr.p_vaddr < env.USER_VADDR_START ∨ phdr.p_vaddr ≥ env.USER_VADDR_LIMIT then
    false
  else if phdr.p_flags &&& env.PF_X ≠ 0 ∧ ¬ (phdr.p_flags &&& env.PF_R ≠ 0) then
    false
  else
    true

/-- Function `static bool load_segment (struct file *file, struct program_header *phdr)`. The
source calls `install_page (phdr->p_vaddr, file, phdr->p_offset, phdr->p_filesz)`; the first
three arguments are the three parameters of `install_page` (the third converted to `bool`),
the fourth has no parameter to go to. -/
def load_segment (env : Loader) (file : Nat) (phdr : program_header)
    (pd : Nat → Option Nat) : Bool × (Nat → Option Nat) :=
  if phdr.p_type ≠ env.PT_LOAD then
    (false, pd)
  else if !valid_segment env phdr then
    (false, pd)
  else
    let installed := install_page env pd phdr.p_vaddr file (phdr.p_offset != 0)
    if !installed.1 then (false, installed.2) else (true, installed.2)

/-- The loop of `load` over the program headers, entered with loop variable `i`:
`for (; i < ehdr.e_phnum; i++) { if (file_read (file, &phdr, sizeof phdr) != sizeof phdr)
return false; if (!load_segment (file, &phdr)) return false; }`. The result is `false` when
the loop returns from `load`, `true` when it runs to its end, with the page table. -/
def load_segments_from (env : Loader) (file e_phnum : Nat) (pd : Nat → Option Nat)
    (i : Nat) : Bool × (Nat → Option Nat) :=
  if i < e_phnum then
    let record := env.read_phdr file i
    if record.1 ≠ env.sizeof_phdr then
      (false, pd)
    else
      let loaded := load_segment env file record.2 pd
      if !loaded.1 then
        (false, loaded.2)
      else
        load_segments_from env file e_phnum loaded.2 (i + 1)
  else
    (true, pd)
termination_by e_phnum - i

/-- Function `static bool setup_stack (const char *file_name)`. -/
def setup_stack (env : Loader) (pd : Nat → Option Nat) : Bool × (Nat → Option Nat) :=
  match env.palloc_get_page with
  | some kpage => install_page env pd env.USER_STACK kpage true
  | none => (false, pd)

/-- Function `static bool load (const char *file_name)`, with the page table of the current
thread on entry; the result is the value returned and the page table as `load` leaves it.
The diagnostic output (`printf`, `hex_dump`) and the `file_close` before each return after
the file was opened have no bearing on either and are not represented. -/
def load (env : Loader) (file_name : Nat) (pd : Nat → Option Nat) :
    Bool × (Nat → Option Nat) :=
  match env.filesys_open file_name with
  | none => (false, pd)
  | some file =>
    let header := env.read_ehdr file
    if header.1 ≠ env.sizeof_ehdr ∨ !env.is_elf header.2 then
      (false, pd)
    else
      let segments := load_segments_from env file header.2.e_phnum pd 0
      if !segments.1 then (false, segments.2) else setup_stack env segments.2

/-! ### The conditions of the specification for a successful load -/

/-- The address space `one_page_space` with the word 7, the number of `filesize`, stored at
`0x08048ff9`: that word lies within the only mapped page, and the argument slot after it,
at `0x08048ffd`, has its first three bytes on the page and its fourth on the unmapped page
that follows. -/
def straddling_space : AddressSpace :=
  { one_page_space with int_at := fun a => if a = 134516729 then 7 else 0 }

/-! # Theorems -/

/-! ## Memory validator -/

theorem is_valid_pointer_eq_true (as : AddressSpace) (vaddr : Nat) :
    is_valid_pointer as vaddr = true ↔
      vaddr ≠ 0 ∧ vaddr < as.PHYS_BASE ∧ as.pagedir_get_page vaddr ≠ none := by
  simp [is_valid_pointer, is_user_vaddr, and_assoc]

/-- C4: `is_valid_pointer addr` is true exactly when `addr` is non-null, lies below the
kernel/user split and is mapped by the current thread's page table; hence a null address, an
address at or above the split and an unmapped address are each rejected. -/
theorem is_valid_pointer_spec (as : AddressSpace) (addr : Nat) :
    (is_valid_pointer as addr = true ↔
      addr ≠ 0 ∧ is_user_vaddr as addr = true ∧ ∃ kpage, as.pagedir_get_page addr = some kpage) ∧
    ((addr = 0 ∨ as.PHYS_BASE ≤ addr ∨ as.pagedir_get_page addr = none) →
      is_valid_pointer as addr = false) := by
  constructor
  · rw [is_valid_pointer_eq_true]
    simp only [is_user_vaddr, decide_eq_true_eq, Option.ne_none_iff_exists']
  · intro h
    rw [← Bool.not_eq_true, is_valid_pointer_eq_true]
    rintro ⟨h0, h1, h2⟩
    rcases h with h | h | h
    · exact h0 h
    · omega
    · exact h2 h

theorem validate_buffer_from_cases (as : AddressSpace) (buffer size i : Nat) :
    validate_buffer_from as buffer size i = Outcome.returned () ∨
    validate_buffer_from as buffer size i = Outcome.terminated ERROR := by
  generalize h : size - i = n
  induction n generalizing i with
  | zero =>
    rw [validate_buffer_from]
    simp [show ¬ i < size by omega]
  | succ n ih =>
    rw [validate_buffer_from]
    by_cases hv : is_valid_pointer as ((buffer + i) % 4294967296) = true
    · simp [show i < size by omega, hv]
      exact ih (i + 1) (by omega)
    · simp [show i < size by omega, hv]

theorem validate_buffer_from_returned (as : AddressSpace) (buffer size i : Nat) :
    validate_buffer_from as buffer size i = Outcome.returned () ↔
      ∀ j, i ≤ j → j < size → is_valid_pointer as ((buffer + j) % 4294967296) = true := by
  generalize h : size - i = n
  induction n generalizing i with
  | zero =>
    rw [validate_buffer_from]
    simp [show ¬ i < size by omega]
    intro j h1 h2
    omega
  | succ n ih =>
    rw [validate_buffer_from]
    by_cases hv : is_valid_pointer as ((buffer + i) % 4294967296) = true
    · simp [show i < size by omega, hv]
      rw [ih (i + 1) (by omega)]
      constructor
      · intro hall j h1 h2
        rcases Nat.eq_or_lt_of_le h1 with heq | hlt
        · subst heq; exact hv
        · exact hall j hlt h2
      · intro hall j h1 h2
        exact hall j (by omega) h2
    · simp [show i < size by omega, hv]
      exact ⟨i, le_refl i, by omega, by simpa using hv⟩

/-- On a 32-bit machine whose kernel/user split is an address, wrapping the addresses of a
buffer does not change whether all of them are valid: an address past the top of the
address space is invalid, and so is the null address the wrap would reach first. -/
theorem wrapped_range_valid_iff (as : AddressSpace) (hsplit : as.PHYS_BASE ≤ 4294967296)
    (ptr len : Nat) (hptr : ptr < 4294967296) :
    (∀ j, j < len → is_valid_pointer as ((ptr + j) % 4294967296) = true) ↔
      (∀ j, j < len → is_valid_pointer as (ptr + j) = true) := by
  constructor
  · intro hall j hj
    by_cases hlt : ptr + j < 4294967296
    · have := hall j hj
      rwa [Nat.mod_eq_of_lt hlt] at this
    · exfalso
      have h0 := hall (4294967296 - ptr) (by omega)
      rw [show ptr + (4294967296 - ptr) = 4294967296 by omega] at h0
      simp [is_valid_pointer] at h0
  · intro hall j hj
    have hv := hall j hj
    have hlt : ptr + j < 4294967296 := by
      have := ((is_valid_pointer_eq_true as (ptr + j)).1 hv).2.1
      omega
    rwa [Nat.mod_eq_of_lt hlt]

/-- C3: `validate_buffer ptr len` returns normally exactly when every byte address of
`[ptr, ptr + len)` satisfies `is_valid_pointer`; when some address of the range is invalid
(wherever in the buffer it lies) the process is terminated with status -1 instead. -/
theorem validate_buffer_spec (as : AddressSpace) (hsplit : as.PHYS_BASE ≤ 4294967296)
    (ptr len : Nat) (hptr : ptr < 4294967296) :
    (validate_buffer as ptr len = Outcome.returned () ↔
      ∀ a, ptr ≤ a → a < ptr + len → is_valid_pointer as a = true) ∧
    ((∃ a, ptr ≤ a ∧ a < ptr + len ∧ is_valid_pointer as a = false) →
      validate_buffer as ptr len = Outcome.terminated (-1)) := by
  have key : validate_buffer as ptr len = Outcome.returned () ↔
      ∀ a, ptr ≤ a → a < ptr + len → is_valid_pointer as a = true := by
    unfold validate_buffer
    rw [validate_buffer_from_returned]
    have h := wrapped_range_valid_iff as hsplit ptr len hptr
    constructor
    · intro hall a h1 h2
      have := (h.1 (fun j hj => hall j (Nat.zero_le j) hj)) (a - ptr) (by omega)
      rwa [show ptr + (a - ptr) = a by omega] at this
    · intro hall j _ hj
      exact h.2 (fun j hj => hall (ptr + j) (by omega) (by omega)) j hj
  refine ⟨key, ?_⟩
  rintro ⟨a, h1, h2, h3⟩
  rcases validate_buffer_from_cases as ptr len 0 with hr | ht
  · have := key.1 hr a h1 h2
    rw [h3] at this
    exact absurd this (by decide)
  · exact ht

/-- C3 (witness): a buffer of 16 bytes that starts 6 bytes before the end of the only mapped
page, so that its last 10 byte addresses are unmapped. -/
theorem validate_buffer_spec_witness :
    one_page_space.PHYS_BASE ≤ 4294967296 ∧ 134516730 < 4294967296 ∧
    (validate_buffer one_page_space 134516730 16 = Outcome.returned () ↔
      ∀ a, 134516730 ≤ a → a < 134516730 + 16 → is_valid_pointer one_page_space a = true) ∧
    ((∃ a, 134516730 ≤ a ∧ a < 134516730 + 16 ∧ is_valid_pointer one_page_space a = false) →
      validate_buffer one_page_space 134516730 16 = Outcome.terminated (-1)) :=
  ⟨by decide, by decide,
    validate_buffer_spec one_page_space (by decide) 134516730 16 (by decide)⟩

/-! ## IPC mailbox -/

theorem ipc_send_from_eq_receive_from (cap : Nat) (message data : Nat → Nat) (i : Nat) :
    ipc_send_from cap message data i = ipc_receive_from message data (cap - 1) i := by
  generalize h : cap - 1 - i = n
  induction n generalizing i data with
  | zero =>
    rw [ipc_send_from, ipc_receive_from]
    simp [show ¬ i < cap - 1 by omega]
  | succ n ih =>
    rw [ipc_send_from, ipc_receive_from]
    by_cases hc : i < cap - 1 ∧ message i ≠ 0
    · rw [if_pos hc, if_pos hc]
      exact ih _ (i + 1) (by omega)
    · rw [if_neg hc, if_neg hc]

/-- The copy loop run on a source whose bytes below `stop` are non-zero and which either
reaches the bound at `stop` or holds a NUL there: the loop leaves at index `stop`, having
copied the bytes from `i` up to `stop` and nothing else. -/
theorem ipc_receive_from_spec (data buffer : Nat → Nat) (bound stop i : Nat)
    (hi : i ≤ stop) (hstop : stop ≤ bound)
    (hbytes : ∀ j, i ≤ j → j < stop → data j ≠ 0)
    (hend : stop = bound ∨ data stop = 0) :
    (ipc_receive_from data buffer bound i).2 = stop ∧
    ∀ j, (ipc_receive_from data buffer bound i).1 j =
      if i ≤ j ∧ j < stop then data j else buffer j := by
  generalize h : stop - i = n
  induction n generalizing i buffer with
  | zero =>
    have hEq : i = stop := by omega
    subst hEq
    rw [ipc_receive_from]
    have hc : ¬ (i < bound ∧ data i ≠ 0) := by
      rintro ⟨h1, h2⟩
      rcases hend with he | he
      · omega
      · exact h2 he
    rw [if_neg hc]
    refine ⟨rfl, fun j => ?_⟩
    rw [if_neg (by omega)]
  | succ n ih =>
    rw [ipc_receive_from]
    have hc : i < bound ∧ data i ≠ 0 := ⟨by omega, hbytes i (le_refl i) (by omega)⟩
    rw [if_pos hc]
    obtain ⟨h1, h2⟩ := ih (Function.update buffer i (data i)) (i + 1) (by omega)
      (fun j hj1 hj2 => hbytes j (by omega) hj2) (by omega)
    refine ⟨h1, fun j => ?_⟩
    rw [h2 j]
    by_cases hj : j = i
    · subst hj
      rw [if_neg (by omega), if_pos ⟨le_refl j, by omega⟩, Function.update_same]
    · rw [Function.update_noteq hj]
      by_cases hj2 : i ≤ j ∧ j < stop
      · rw [if_pos hj2, if_pos ⟨by omega, hj2.2⟩]
      · rw [if_neg hj2, if_neg (by omega)]

/-- What `ipc_send_message` leaves in the mailbox: the message bytes below
`min len (IPC_BUFFER_SIZE - 1)`, a NUL at that index, the gate free again. -/
theorem ipc_send_message_spec (cap : Nat) (message : Nat → Nat) (len : Nat)
    (hbytes : ∀ j, j < len → message j ≠ 0) (hnul : message len = 0)
    (b : ipc_buffer) (hgate : 0 < b.sema) :
    ∃ b1, ipc_send_message cap message b = some b1 ∧ b1.sema = b.sema ∧
      (∀ j, j < min len (cap - 1) → b1.data j = message j) ∧
      b1.data (min len (cap - 1)) = 0 ∧
      (∀ j, min len (cap - 1) < j → b1.data j = b.data j) := by
  have hstop : min len (cap - 1) = cap - 1 ∨ message (min len (cap - 1)) = 0 := by
    rcases Nat.le_total len (cap - 1) with hle | hle
    · right; rw [Nat.min_eq_left hle]; exact hnul
    · left; exact Nat.min_eq_right hle
  obtain ⟨h1, h2⟩ := ipc_receive_from_spec message b.data (cap - 1) (min len (cap - 1)) 0
    (Nat.zero_le _) (Nat.min_le_right _ _)
    (fun j _ hj => hbytes j (lt_of_lt_of_le hj (Nat.min_le_left _ _))) hstop
  have hdown : sema_down b.sema = some (b.sema - 1) := by
    unfold sema_down
    rw [if_neg (by omega)]
  have hsend : ipc_send_message cap message b =
      some { data := Function.update (ipc_send_from cap message b.data 0).1
                      (ipc_send_from cap message b.data 0).2 0,
             sema := sema_up (b.sema - 1) } := by
    unfold ipc_send_message
    rw [hdown]
  refine ⟨_, hsend, ?_, ?_, ?_, ?_⟩
  · show sema_up (b.sema - 1) = b.sema
    unfold sema_up
    omega
  · intro j hj
    dsimp only
    rw [ipc_send_from_eq_receive_from, h1, Function.update_noteq (by omega), h2 j,
      if_pos ⟨Nat.zero_le j, hj⟩]
  · dsimp only
    rw [ipc_send_from_eq_receive_from, h1, Function.update_same]
  · intro j hj
    dsimp only
    rw [ipc_send_from_eq_receive_from, h1, Function.update_noteq (by omega), h2 j,
      if_neg (by omega)]

/-- What `ipc_receive_message` leaves in the caller's buffer when the mailbox holds a string
of `len` non-zero bytes and a NUL, in terms of the loop bound (the `size_t` value of
`size - 1`): the bytes below `min len bound`, a NUL at that index, the rest of the buffer as
it was. -/
theorem ipc_receive_message_spec (b : ipc_buffer) (len : Nat)
    (hbytes : ∀ j, j < len → b.data j ≠ 0) (hnul : b.data len = 0) (hgate : 0 < b.sema)
    (buffer : Nat → Nat) (size : Nat) :
    ∃ buf b2, ipc_receive_message buffer size b = some (buf, b2) ∧
      (∀ j, j < min len ((size + 4294967295) % 4294967296) → buf j = b.data j) ∧
      buf (min len ((size + 4294967295) % 4294967296)) = 0 ∧
      (∀ j, min len ((size + 4294967295) % 4294967296) < j → buf j = buffer j) := by
  generalize hB : (size + 4294967295) % 4294967296 = bound
  have hstop : min len bound = bound ∨ b.data (min len bound) = 0 := by
    rcases Nat.le_total len bound with hle | hle
    · right; rw [Nat.min_eq_left hle]; exact hnul
    · left; exact Nat.min_eq_right hle
  obtain ⟨e1, e2⟩ := ipc_receive_from_spec b.data buffer bound (min len bound) 0
    (Nat.zero_le _) (Nat.min_le_right _ _)
    (fun j _ hj => hbytes j (lt_of_lt_of_le hj (Nat.min_le_left _ _))) hstop
  have hdown : sema_down b.sema = some (b.sema - 1) := by
    unfold sema_down
    rw [if_neg (by omega)]
  have hrecv : ipc_receive_message buffer size b =
      some (Function.update (ipc_receive_from b.data buffer bound 0).1
              (ipc_receive_from b.data buffer bound 0).2 0,
            { data := b.data, sema := sema_up (b.sema - 1) }) := by
    unfold ipc_receive_message
    rw [hdown, hB]
  refine ⟨_, _, hrecv, ?_, ?_, ?_⟩
  · intro j hj
    rw [e1, Function.update_noteq (by omega), e2 j, if_pos ⟨Nat.zero_le j, hj⟩]
  · rw [e1, Function.update_same]
  · intro j hj
    rw [e1, Function.update_noteq (by omega), e2 j, if_neg (by omega)]

/-- A send followed at once by a receive, in terms of the loop bound of the receive. -/
theorem ipc_send_receive_spec (cap : Nat) (m : Nat → Nat) (len : Nat)
    (hbytes : ∀ j, j < len → m j ≠ 0) (hnul : m len = 0)
    (b : ipc_buffer) (hgate : 0 < b.sema) (buf : Nat → Nat) (c : Nat) :
    ∃ b1 buf1 b2,
      ipc_send_message cap m b = some b1 ∧
      ipc_receive_message buf c b1 = some (buf1, b2) ∧
      (∀ j, j < min (min len (cap - 1)) ((c + 4294967295) % 4294967296) → buf1 j = m j) ∧
      buf1 (min (min len (cap - 1)) ((c + 4294967295) % 4294967296)) = 0 ∧
      (∀ j, min (min len (cap - 1)) ((c + 4294967295) % 4294967296) < j → buf1 j = buf j) := by
  obtain ⟨b1, hs, hsema, hd1, hd2, _⟩ := ipc_send_message_spec cap m len hbytes hnul b hgate
  obtain ⟨buf1, b2, hr, hb1, hb2, hb3⟩ :=
    ipc_receive_message_spec b1 (min len (cap - 1))
      (fun j hj => by rw [hd1 j hj]; exact hbytes j (lt_of_lt_of_le hj (Nat.min_le_left _ _)))
      hd2 (by omega) buf c
  refine ⟨b1, buf1, b2, hs, hr, ?_, hb2, hb3⟩
  intro j hj
  rw [hb1 j hj]
  exact hd1 j (lt_of_lt_of_le hj (Nat.min_le_left _ _))

/-- C1 (as amended): when the mailbox gate is free, `ipc_send_message m` followed at once by
`ipc_receive_message buf c` with `1 ≤ c` leaves in `buf` the bytes of `m` truncated to the
smaller of `c - 1` and `IPC_BUFFER_SIZE - 1` bytes, followed by a NUL terminator, and leaves
the bytes of `buf` after the terminator as they were. -/
theorem ipc_round_trip (IPC_BUFFER_SIZE : Nat) (_hcap : 0 < IPC_BUFFER_SIZE)
    (m : Nat → Nat) (len : Nat) (hbytes : ∀ j, j < len → m j ≠ 0) (hnul : m len = 0)
    (b : ipc_buffer) (hgate : 0 < b.sema)
    (buf : Nat → Nat) (c : Nat) (hc1 : 1 ≤ c) (hc2 : c < 4294967296) :
    ∃ b1 buf1 b2,
      ipc_send_message IPC_BUFFER_SIZE m b = some b1 ∧
      ipc_receive_message buf c b1 = some (buf1, b2) ∧
      (∀ j, j < min len (min (c - 1) (IPC_BUFFER_SIZE - 1)) → buf1 j = m j) ∧
      buf1 (min len (min (c - 1) (IPC_BUFFER_SIZE - 1))) = 0 ∧
      (∀ j, min len (min (c - 1) (IPC_BUFFER_SIZE - 1)) < j → buf1 j = buf j) := by
  have hbound : (c + 4294967295) % 4294967296 = c - 1 := by omega
  have hmin : min (min len (IPC_BUFFER_SIZE - 1)) (c - 1) =
      min len (min (c - 1) (IPC_BUFFER_SIZE - 1)) := by
    simp only [Nat.min_def]
    split_ifs <;> omega
  have h := ipc_send_receive_spec IPC_BUFFER_SIZE m len hbytes hnul b hgate buf c
  rw [hbound, hmin] at h
  exact h

/-- C1 (witness): a mailbox of 4 bytes, the message "hello", a receive buffer of 8 bytes. -/
theorem ipc_round_trip_witness :
    (0 < 4) ∧ (∀ j, j < 5 → hello j ≠ 0) ∧ hello 5 = 0 ∧ 0 < empty_mailbox.sema ∧
    1 ≤ 8 ∧ 8 < 4294967296 ∧
    ∃ b1 buf1 b2,
      ipc_send_message 4 hello empty_mailbox = some b1 ∧
      ipc_receive_message (fun _ => 255) 8 b1 = some (buf1, b2) ∧
      (∀ j, j < min 5 (min (8 - 1) (4 - 1)) → buf1 j = hello j) ∧
      buf1 (min 5 (min (8 - 1) (4 - 1))) = 0 ∧
      (∀ j, min 5 (min (8 - 1) (4 - 1)) < j → buf1 j = (fun _ => 255) j) :=
  ⟨by decide, by decide, by decide, by decide, by decide, by decide,
    ipc_round_trip 4 (by decide) hello 5 (by decide) (by decide) empty_mailbox (by decide)
      (fun _ => 255) 8 (by decide) (by decide)⟩

/-- C1 (counterexample): the claim as stated fails whatever the capacity of the mailbox.
First, with receiver capacities of at least one: a message of `IPC_BUFFER_SIZE` non-zero
bytes received with capacity `IPC_BUFFER_SIZE + 1` does not come back whole, its last byte
is replaced by the terminator. Second, at capacity 0 (mailbox of two bytes or more): the
one-byte message is written to the buffer although no byte of it fits. -/
theorem ipc_round_trip_counterexample :
    (¬ ∃ cap : Nat, 0 < cap ∧ cap + 1 < 4294967296 ∧
      ∀ (m : Nat → Nat) (len : Nat), (∀ j, j < len → m j ≠ 0) → m len = 0 →
      ∀ (b : ipc_buffer), 0 < b.sema → ∀ (buf : Nat → Nat) (c : Nat),
        1 ≤ c → c < 4294967296 →
        ∃ b1 buf1 b2,
          ipc_send_message cap m b = some b1 ∧
          ipc_receive_message buf c b1 = some (buf1, b2) ∧
          (∀ j, j < min len (c - 1) → buf1 j = m j) ∧
          buf1 (min len (c - 1)) = 0) ∧
    (¬ ∃ cap : Nat, 2 ≤ cap ∧
      ∀ (m : Nat → Nat) (len : Nat), (∀ j, j < len → m j ≠ 0) → m len = 0 →
      ∀ (b : ipc_buffer), 0 < b.sema → ∀ (buf : Nat → Nat),
        ∃ b1 buf1 b2,
          ipc_send_message cap m b = some b1 ∧
          ipc_receive_message buf 0 b1 = some (buf1, b2) ∧
          (∀ j, j < min len (0 - 1) → buf1 j = m j) ∧
          buf1 (min len (0 - 1)) = 0) := by
  constructor
  · rintro ⟨cap, h0, h1, h⟩
    have hm : ∀ j, j < cap → (fun j => if j < cap then 1 else 0) j ≠ 0 := by
      intro j hj
      simp [hj]
    have hn : (fun j => if j < cap then 1 else 0) cap = 0 := by simp
    obtain ⟨b1, buf1, b2, hs, hr, hc, _⟩ :=
      h (fun j => if j < cap then 1 else 0) cap hm hn ⟨fun _ => 0, 1⟩ (by decide)
        (fun _ => 0) (cap + 1) (by omega) h1
    obtain ⟨b1', buf1', b2', hs', hr', _, hz, _⟩ :=
      ipc_send_receive_spec cap (fun j => if j < cap then 1 else 0) cap hm hn
        ⟨fun _ => 0, 1⟩ (by decide) (fun _ => 0) (cap + 1)
    rw [hs] at hs'
    cases hs'
    rw [hr] at hr'
    cases hr'
    have e1 : min (min cap (cap - 1)) ((cap + 1 + 4294967295) % 4294967296) = cap - 1 := by
      have : (cap + 1 + 4294967295) % 4294967296 = cap := by omega
      rw [this]
      simp only [Nat.min_def]
      split_ifs <;> omega
    rw [e1] at hz
    have := hc (cap - 1) (by simp only [Nat.min_def]; split_ifs <;> omega)
    rw [hz] at this
    simp [show cap - 1 < cap by omega] at this
  · rintro ⟨cap, h0, h⟩
    have hm : ∀ j, j < 1 → (fun j => if j < 1 then 1 else 0) j ≠ 0 := by
      intro j hj
      simp [hj]
    have hn : (fun j => if j < 1 then 1 else 0) 1 = 0 := by simp
    obtain ⟨b1, buf1, b2, hs, hr, _, hc⟩ :=
      h (fun j => if j < 1 then 1 else 0) 1 hm hn ⟨fun _ => 0, 1⟩ (by decide) (fun _ => 0)
    obtain ⟨b1', buf1', b2', hs', hr', hcopy, _, _⟩ :=
      ipc_send_receive_spec cap (fun j => if j < 1 then 1 else 0) 1 hm hn
        ⟨fun _ => 0, 1⟩ (by decide) (fun _ => 0) 0
    rw [hs] at hs'
    cases hs'
    rw [hr] at hr'
    cases hr'
    have e1 : min (min 1 (cap - 1)) ((0 + 4294967295) % 4294967296) = 1 := by
      simp only [Nat.min_def]
      split_ifs <;> omega
    rw [e1] at hcopy
    have := hcopy 0 (by decide)
    simp at hc
    rw [hc] at this
    simp at this

/-! ## String arguments -/

theorem validate_string_from_returns (as : AddressSpace) (s : Nat) :
    validate_string_from as s = Outcome.returned () := by
  generalize h : as.PHYS_BASE - s = n
  induction n generalizing s with
  | zero =>
    rw [validate_string_from]
    have hv : is_valid_pointer as s = false := by
      rw [← Bool.not_eq_true, is_valid_pointer_eq_true]
      rintro ⟨_, h1, _⟩
      omega
    simp [hv]
  | succ n ih =>
    rw [validate_string_from]
    split
    · exact ih (s + 1) (by omega)
    · rfl

theorem validate_string_returns (as : AddressSpace) (str : Nat) :
    validate_string as str = Outcome.returned () :=
  validate_string_from_returns as str

theorem convert_user_vaddr_of_valid (as : AddressSpace) (vaddr : Nat)
    (h : is_valid_pointer as vaddr = true) :
    ∃ kpage, as.pagedir_get_page vaddr = some kpage ∧
      convert_user_vaddr as vaddr = Outcome.returned (to_int kpage) := by
  obtain ⟨_, _, hm⟩ := (is_valid_pointer_eq_true as vaddr).1 h
  obtain ⟨kpage, hk⟩ := Option.ne_none_iff_exists'.1 hm
  refine ⟨kpage, hk, ?_⟩
  unfold convert_user_vaddr
  simp [h, hk]

/-- C2 (the code at the failing input): when the first byte of the string argument is at a
valid address and is not NUL, and the next byte address is invalid, so that an invalid
address precedes the terminator, each of `syscall_exec`, `syscall_open` and
`syscall_create` returns without terminating the process, having called its operation
(`execute_program`, `open_file`, `create_file`) on the translated address. -/
theorem string_handlers_call_operation_on_invalid_string (as : AddressSpace)
    (ops : Operations) (f : intr_frame) (arg : Nat → Int) (k : Kernel)
    (hfirst : is_valid_pointer as (to_unsigned (arg 0)) = true)
    (_hbyte : as.byte_at (to_unsigned (arg 0)) ≠ 0)
    (_hnext : is_valid_pointer as (to_unsigned (arg 0) + 1) = false) :
    ∃ kpage, as.pagedir_get_page (to_unsigned (arg 0)) = some kpage ∧
      syscall_exec as ops f arg k =
        { frame := { f with
            eax := to_unsigned (ops.execute_program (to_unsigned (to_int kpage)) k).1 }
          kernel := (ops.execute_program (to_unsigned (to_int kpage)) k).2
          exited := none } ∧
      syscall_open as ops f arg k =
        { frame := { f with
            eax := to_unsigned (ops.open_file (to_unsigned (to_int kpage)) k).1 }
          kernel := (ops.open_file (to_unsigned (to_int kpage)) k).2
          exited := none } ∧
      syscall_create as ops f arg k =
        { frame := { f with
            eax := if (ops.create_file (to_unsigned (to_int kpage))
                        (to_unsigned (arg 1)) k).1 then 1 else 0 }
          kernel := (ops.create_file (to_unsigned (to_int kpage)) (to_unsigned (arg 1)) k).2
          exited := none } := by
  obtain ⟨kpage, hk, hconv⟩ := convert_user_vaddr_of_valid as _ hfirst
  refine ⟨kpage, hk, ?_, ?_, ?_⟩
  · unfold syscall_exec
    rw [validate_string_returns, hconv]
  · unfold syscall_open
    rw [validate_string_returns, hconv]
  · unfold syscall_create
    rw [validate_string_returns, hconv]

/-- C2 (witness): the string starts at `0x08048fff`, the last byte of the only mapped page,
which holds the letter `a`; the page after it is not mapped. -/
theorem string_handlers_call_operation_on_invalid_string_witness :
    is_valid_pointer one_page_space (to_unsigned ((fun _ => 134516735) 0)) = true ∧
    one_page_space.byte_at (to_unsigned ((fun _ => 134516735) 0)) ≠ 0 ∧
    is_valid_pointer one_page_space (to_unsigned ((fun _ => 134516735) 0) + 1) = false ∧
    ∃ kpage, one_page_space.pagedir_get_page (to_unsigned ((fun _ => 134516735) 0)) =
        some kpage ∧
      syscall_exec one_page_space idle_operations ⟨134512640, 0⟩ (fun _ => 134516735)
          sample_kernel =
        { frame := { (⟨134512640, 0⟩ : intr_frame) with
            eax := to_unsigned
              (idle_operations.execute_program (to_unsigned (to_int kpage)) sample_kernel).1 }
          kernel :=
            (idle_operations.execute_program (to_unsigned (to_int kpage)) sample_kernel).2
          exited := none } ∧
      syscall_open one_page_space idle_operations ⟨134512640, 0⟩ (fun _ => 134516735)
          sample_kernel =
        { frame := { (⟨134512640, 0⟩ : intr_frame) with
            eax := to_unsigned
              (idle_operations.open_file (to_unsigned (to_int kpage)) sample_kernel).1 }
          kernel := (idle_operations.open_file (to_unsigned (to_int kpage)) sample_kernel).2
          exited := none } ∧
      syscall_create one_page_space idle_operations ⟨134512640, 0⟩ (fun _ => 134516735)
          sample_kernel =
        { frame := { (⟨134512640, 0⟩ : intr_frame) with
            eax := if (idle_operations.create_file (to_unsigned (to_int kpage))
                        (to_unsigned ((fun _ => 134516735) 1)) sample_kernel).1 then 1 else 0 }
          kernel := (idle_operations.create_file (to_unsigned (to_int kpage))
                        (to_unsigned ((fun _ => 134516735) 1)) sample_kernel).2
          exited := none } :=
  ⟨by decide, by decide, by decide,
    string_handlers_call_operation_on_invalid_string one_page_space idle_operations
      ⟨134512640, 0⟩ (fun _ => 134516735) sample_kernel (by decide) (by decide) (by decide)⟩

/-! ## System-call entry -/

theorem num_syscall_args_range (nr : SyscallNr) (syscall_code : Int) :
    0 ≤ num_syscall_args nr syscall_code ∧ num_syscall_args nr syscall_code ≤ 3 := by
  unfold num_syscall_args
  split_ifs <;> omega

theorem read_int_eq_some (as : AddressSpace) (esp : Nat) (word : Int)
    (h : read_int as esp = some word) : word = as.int_at esp := by
  unfold read_int at h
  split at h
  · exact absurd h (by simp)
  · simp only [Option.some.injEq] at h
    exact h.symm

/-- When one of the slots still to be loaded is at an invalid address and the words of the
slots at valid addresses can be read, the loop of `load_syscall_args` ends in
`terminate_process (ERROR)`. -/
theorem load_syscall_args_from_terminated (as : AddressSpace) (f : intr_frame)
    (arg : Nat → Int) (n : Int) (i : Nat)
    (hread : ∀ j : Nat, i ≤ j → (j : Int) < n →
      is_valid_pointer as ((f.esp + 4 * (j + 1)) % 4294967296) = true →
      read_int as ((f.esp + 4 * (j + 1)) % 4294967296) ≠ none)
    (h : ∃ j : Nat, i ≤ j ∧ (j : Int) < n ∧
      is_valid_pointer as ((f.esp + 4 * (j + 1)) % 4294967296) = false) :
    load_syscall_args_from as f arg n i = Loaded.terminated ERROR := by
  generalize hm : (n - i).toNat = m
  induction m generalizing i arg with
  | zero =>
    obtain ⟨j, h1, h2, _⟩ := h
    omega
  | succ m ih =>
    obtain ⟨j, h1, h2, h3⟩ := h
    rw [load_syscall_args_from]
    have hlt : (i : Int) < n := by omega
    rw [if_pos hlt]
    by_cases hv : is_valid_pointer as ((f.esp + 4 * (i + 1)) % 4294967296) = true
    · simp only [hv, Bool.not_true, Bool.false_eq_true, if_false]
      have hne : j ≠ i := by
        rintro rfl
        rw [hv] at h3
        exact absurd h3 (by decide)
      obtain ⟨word, hw⟩ := Option.ne_none_iff_exists'.1 (hread i (le_refl i) hlt hv)
      rw [hw]
      exact ih _ (i + 1) (fun x hx1 hx2 => hread x (by omega) hx2) ⟨j, by omega, h2, h3⟩
        (by omega)
    · simp [hv]

/-- When every slot still to be loaded is at a valid address and its word can be read, the
loop of `load_syscall_args` returns, having stored in `arg[j]` the word of slot `j` for each
of them and left the other entries of `arg` as they were. -/
theorem load_syscall_args_from_returned (as : AddressSpace) (f : intr_frame)
    (arg : Nat → Int) (n : Int) (i : Nat)
    (h : ∀ j : Nat, i ≤ j → (j : Int) < n →
      is_valid_pointer as ((f.esp + 4 * (j + 1)) % 4294967296) = true)
    (hread : ∀ j : Nat, i ≤ j → (j : Int) < n →
      read_int as ((f.esp + 4 * (j + 1)) % 4294967296) ≠ none) :
    ∃ arg1, load_syscall_args_from as f arg n i = Loaded.returned arg1 ∧
      ∀ j : Nat, arg1 j =
        if i ≤ j ∧ (j : Int) < n then as.int_at ((f.esp + 4 * (j + 1)) % 4294967296)
        else arg j := by
  generalize hm : (n - i).toNat = m
  induction m generalizing i arg with
  | zero =>
    rw [load_syscall_args_from]
    have hlt : ¬ (i : Int) < n := by omega
    rw [if_neg hlt]
    refine ⟨arg, rfl, fun j => ?_⟩
    rw [if_neg (by omega)]
  | succ m ih =>
    rw [load_syscall_args_from]
    have hlt : (i : Int) < n := by omega
    rw [if_pos hlt]
    have hv := h i (le_refl i) hlt
    simp only [hv, Bool.not_true, Bool.false_eq_true, if_false]
    obtain ⟨word, hw⟩ := Option.ne_none_iff_exists'.1 (hread i (le_refl i) hlt)
    have hword := read_int_eq_some as _ word hw
    rw [hw]
    obtain ⟨arg1, h1, h2⟩ := ih (Function.update arg i word) (i + 1)
      (fun j hj1 hj2 => h j (by omega) hj2) (fun j hj1 hj2 => hread j (by omega) hj2)
      (by omega)
    refine ⟨arg1, h1, fun j => ?_⟩
    rw [h2 j]
    by_cases hj : j = i
    · subst hj
      rw [if_neg (by omega), if_pos ⟨le_refl j, hlt⟩, Function.update_same, hword]
    · rw [Function.update_noteq hj]
      by_cases hj2 : i ≤ j ∧ (j : Int) < n
      · rw [if_pos hj2, if_pos ⟨by omega, hj2.2⟩]
      · rw [if_neg hj2, if_neg (by omega)]

/-- Where the words that `syscall_handler` reads after a successful test can all be read
(none of them runs into an unmapped page), it terminates the process with status -1,
calling no handler, when the stack pointer or the address of one of the `n` argument slots
is invalid, and otherwise passes to `call_syscall_handler` an array whose entry `i` is the
word stored in slot `i`, for every `i < n`. -/
theorem syscall_handler_of_readable_words (as : AddressSpace)
    (hsplit : as.PHYS_BASE + 12 ≤ 4294967296) (nr : SyscallNr) (ops : Operations)
    (arg : Nat → Int) (f : intr_frame) (c : Counters) (k : Kernel)
    (hcode : is_valid_pointer as f.esp = true → read_int as f.esp ≠ none)
    (hwords : ∀ i : Nat, (i : Int) < num_syscall_args nr (as.int_at f.esp) →
      is_valid_pointer as (f.esp + 4 * (i + 1)) = true →
      read_int as (f.esp + 4 * (i + 1)) ≠ none) :
    ((is_valid_pointer as f.esp = false ∨
        ∃ i : Nat, (i : Int) < num_syscall_args nr (as.int_at f.esp) ∧
          is_valid_pointer as (f.esp + 4 * (i + 1)) = false) →
      (syscall_handler as nr ops arg f c k).handled = terminate_process (-1) f k ∧
      (syscall_handler as nr ops arg f c k).faulted = none) ∧
    ((is_valid_pointer as f.esp = true ∧
        ∀ i : Nat, (i : Int) < num_syscall_args nr (as.int_at f.esp) →
          is_valid_pointer as (f.esp + 4 * (i + 1)) = true) →
      ∃ arg1 : Nat → Int,
        (∀ i : Nat, (i : Int) < num_syscall_args nr (as.int_at f.esp) →
          arg1 i = as.int_at (f.esp + 4 * (i + 1))) ∧
        (syscall_handler as nr ops arg f c k).handled =
          call_syscall_handler as nr ops (as.int_at f.esp) f arg1 k ∧
        (syscall_handler as nr ops arg f c k).faulted = none) := by
  have hn := num_syscall_args_range nr (as.int_at f.esp)
  have hwrap : is_valid_pointer as f.esp = true →
      ∀ i : Nat, (i : Int) < num_syscall_args nr (as.int_at f.esp) →
        (f.esp + 4 * (i + 1)) % 4294967296 = f.esp + 4 * (i + 1) := by
    intro hesp i hi
    have := ((is_valid_pointer_eq_true as f.esp).1 hesp).2.1
    exact Nat.mod_eq_of_lt (by omega)
  have hread : is_valid_pointer as f.esp = true →
      read_int as f.esp = some (as.int_at f.esp) := by
    intro hesp
    obtain ⟨word, hw⟩ := Option.ne_none_iff_exists'.1 (hcode hesp)
    rw [hw, read_int_eq_some as _ word hw]
  constructor
  · intro h
    unfold syscall_handler
    by_cases hesp : is_valid_pointer as f.esp = true
    · simp only [hesp, Bool.not_true, Bool.false_eq_true, if_false, hread hesp]
      rcases h with h | ⟨i, hi, hbad⟩
      · rw [hesp] at h
        exact absurd h (by decide)
      · unfold load_syscall_args
        rw [load_syscall_args_from_terminated as f arg _ 0
          (fun j _ hj hv => by
            rw [hwrap hesp j hj] at hv ⊢
            exact hwords j hj hv)
          ⟨i, Nat.zero_le i, hi, by rw [hwrap hesp i hi]; exact hbad⟩]
        exact ⟨rfl, rfl⟩
    · simp only [hesp, Bool.not_false, if_true]
      simp only [and_true]
      rfl
  · rintro ⟨hesp, hall⟩
    unfold syscall_handler
    simp only [hesp, Bool.not_true, Bool.false_eq_true, if_false, hread hesp]
    obtain ⟨arg1, h1, h2⟩ := load_syscall_args_from_returned as f arg
      (num_syscall_args nr (as.int_at f.esp)) 0
      (fun j _ hj => by rw [hwrap hesp j hj]; exact hall j hj)
      (fun j _ hj => by rw [hwrap hesp j hj]; exact hwords j hj (hall j hj))
    refine ⟨arg1, fun i hi => ?_, ?_⟩
    · rw [h2 i, if_pos ⟨Nat.zero_le i, hi⟩, hwrap hesp i hi]
    · unfold load_syscall_args
      rw [h1]
      simp

/-- The read of the system-call number faults in the kernel when the stack pointer passes the
test and its word runs into an unmapped page. -/
theorem syscall_handler_faults_on_number (as : AddressSpace) (nr : SyscallNr)
    (ops : Operations) (arg : Nat → Int) (f : intr_frame) (c : Counters) (k : Kernel)
    (hesp : is_valid_pointer as f.esp = true) (hfault : read_int as f.esp = none) :
    (syscall_handler as nr ops arg f c k).faulted = some f.esp ∧
    (syscall_handler as nr ops arg f c k).handled = { frame := f, kernel := k, exited := none } := by
  unfold syscall_handler
  simp only [hesp, Bool.not_true, Bool.false_eq_true, if_false, hfault]
  simp

/-- C5 (the code at the failing input): when the stack pointer is valid and the system-call
number read there takes at least one argument, and the address `esp + 4` of the first
argument slot is valid but the four bytes of the slot run into an unmapped page, then
`syscall_handler` passes both of its tests and takes a page fault in the kernel on the read
of the slot: the process is not terminated with status -1 and no handler receives the
word. -/
theorem syscall_handler_faults_on_straddling_slot (as : AddressSpace) (nr : SyscallNr)
    (ops : Operations) (arg : Nat → Int) (f : intr_frame) (c : Counters) (k : Kernel)
    (syscall_code : Int)
    (hesp : is_valid_pointer as f.esp = true)
    (hcode : read_int as f.esp = some syscall_code)
    (hcount : 0 < num_syscall_args nr syscall_code)
    (hslot : is_valid_pointer as ((f.esp + 4) % 4294967296) = true)
    (hfault : read_int as ((f.esp + 4) % 4294967296) = none) :
    (syscall_handler as nr ops arg f c k).faulted = some ((f.esp + 4) % 4294967296) ∧
    (syscall_handler as nr ops arg f c k).handled =
      { frame := f, kernel := k, exited := none } ∧
    (syscall_handler as nr ops arg f c k).handled.exited ≠ some (-1) := by
  have hload : load_syscall_args as f arg (num_syscall_args nr syscall_code) =
      Loaded.faulted ((f.esp + 4) % 4294967296) := by
    unfold load_syscall_args
    rw [load_syscall_args_from]
    rw [if_pos (by simpa using hcount)]
    simp only [Nat.zero_add, Nat.mul_one, hslot, Bool.not_true, Bool.false_eq_true, if_false,
      hfault]
  unfold syscall_handler
  simp only [hesp, Bool.not_true, Bool.false_eq_true, if_false, hcode, hload]
  simp

/-- C5 (witness): the stack pointer is `0x08048ff9`, where the word 7 (the number of
`filesize`, one argument) lies within the only mapped page; the argument slot at
`0x08048ffd` has its first three bytes on the page and its fourth on the unmapped page at
`0x08049000`. -/
theorem syscall_handler_faults_on_straddling_slot_witness :
    is_valid_pointer straddling_space (⟨134516729, 0⟩ : intr_frame).esp = true ∧
    read_int straddling_space (⟨134516729, 0⟩ : intr_frame).esp = some 7 ∧
    0 < num_syscall_args standard_nr 7 ∧
    is_valid_pointer straddling_space
      (((⟨134516729, 0⟩ : intr_frame).esp + 4) % 4294967296) = true ∧
    read_int straddling_space (((⟨134516729, 0⟩ : intr_frame).esp + 4) % 4294967296) = none ∧
    (syscall_handler straddling_space standard_nr idle_operations (fun _ => 0)
        ⟨134516729, 0⟩ zero_counters sample_kernel).faulted =
      some (((⟨134516729, 0⟩ : intr_frame).esp + 4) % 4294967296) ∧
    (syscall_handler straddling_space standard_nr idle_operations (fun _ => 0)
        ⟨134516729, 0⟩ zero_counters sample_kernel).handled =
      { frame := ⟨134516729, 0⟩, kernel := sample_kernel, exited := none } ∧
    (syscall_handler straddling_space standard_nr idle_operations (fun _ => 0)
        ⟨134516729, 0⟩ zero_counters sample_kernel).handled.exited ≠ some (-1) :=
  ⟨by decide, by decide, by decide, by decide, by decide,
    syscall_handler_faults_on_straddling_slot straddling_space standard_nr idle_operations
      (fun _ => 0) ⟨134516729, 0⟩ zero_counters sample_kernel 7 (by decide) (by decide)
      (by decide) (by decide) (by decide)⟩

/-! ## Dispatch through the handler table -/

/-- A code that no entry still to be visited carries makes the loop of
`call_syscall_handler` fall through to `terminate_process (ERROR)`. -/
theorem call_syscall_handler_from_no_entry (as : AddressSpace) (ops : Operations)
    (entries : List syscall_mapping) (syscall_code : Int) (f : intr_frame) (arg : Nat → Int)
    (k : Kernel) (h : ∀ entry ∈ entries, entry.syscall_code ≠ syscall_code) :
    call_syscall_handler_from as ops entries syscall_code f arg k =
      terminate_process ERROR f k := by
  induction entries with
  | nil => rfl
  | cons entry rest ih =>
    unfold call_syscall_handler_from
    rw [if_neg (h entry (List.mem_cons_self _ _))]
    exact ih (fun e he => h e (List.mem_cons_of_mem _ he))

/-- C6 (the code at the failing inputs): when the thirteen system-call numbers are pairwise
distinct, `call_syscall_handler` finds no entry for `SYS_HALT` and none for `SYS_REMOVE`
in the handler table and terminates the process with status -1 as for an unknown system
call; `halt_system` and `delete_file` are not reached. -/
theorem call_syscall_handler_halt_remove_unregistered (as : AddressSpace) (nr : SyscallNr)
    (hnr : nr.codes.Nodup) (ops : Operations) (f : intr_frame) (arg : Nat → Int)
    (k : Kernel) :
    call_syscall_handler as nr ops nr.SYS_HALT f arg k = terminate_process (-1) f k ∧
    call_syscall_handler as nr ops nr.SYS_REMOVE f arg k = terminate_process (-1) f k := by
  simp only [SyscallNr.codes, List.nodup_cons, List.mem_cons, List.mem_singleton, not_or,
    List.not_mem_nil, not_false_eq_true, List.nodup_nil, and_true] at hnr
  constructor
  · apply call_syscall_handler_from_no_entry
    intro entry he
    simp only [syscall_map, List.mem_cons, List.mem_singleton, List.not_mem_nil,
      or_false] at he
    rcases he with rfl | rfl | rfl | rfl | rfl | rfl | rfl | rfl | rfl | rfl | rfl <;>
      simp only [ne_eq] <;> intro heq <;> simp [heq] at hnr
  · apply call_syscall_handler_from_no_entry
    intro entry he
    simp only [syscall_map, List.mem_cons, List.mem_singleton, List.not_mem_nil,
      or_false] at he
    rcases he with rfl | rfl | rfl | rfl | rfl | rfl | rfl | rfl | rfl | rfl | rfl <;>
      simp only [ne_eq] <;> intro heq <;> simp [heq] at hnr

/-- C6 (witness): the numbering that counts the thirteen system calls from 0. -/
theorem call_syscall_handler_halt_remove_unregistered_witness :
    standard_nr.codes.Nodup ∧
    call_syscall_handler one_page_space standard_nr idle_operations standard_nr.SYS_HALT
        ⟨134512640, 0⟩ (fun _ => 0) sample_kernel =
      terminate_process (-1) ⟨134512640, 0⟩ sample_kernel ∧
    call_syscall_handler one_page_space standard_nr idle_operations standard_nr.SYS_REMOVE
        ⟨134512640, 0⟩ (fun _ => 0) sample_kernel =
      terminate_process (-1) ⟨134512640, 0⟩ sample_kernel :=
  ⟨by decide,
    call_syscall_handler_halt_remove_unregistered one_page_space standard_nr (by decide)
      idle_operations ⟨134512640, 0⟩ (fun _ => 0) sample_kernel⟩

/-- C7: for a system-call number that no entry of the handler table carries,
`call_syscall_handler` does exactly what `terminate_process (ERROR)` does, whatever the
operations are: no handler runs, the trap frame (its result register included) is left as
it was, the only collaborator calls are the exit message and `thread_exit`, and the exit
status is -1. -/
theorem call_syscall_handler_unregistered (as : AddressSpace) (nr : SyscallNr)
    (ops : Operations) (syscall_code : Int) (f : intr_frame) (arg : Nat → Int) (k : Kernel)
    (h : ∀ entry ∈ syscall_map nr, entry.syscall_code ≠ syscall_code) :
    call_syscall_handler as nr ops syscall_code f arg k = terminate_process ERROR f k ∧
    (call_syscall_handler as nr ops syscall_code f arg k).frame = f ∧
    (call_syscall_handler as nr ops syscall_code f arg k).exited = some (-1) ∧
    ∃ name, (call_syscall_handler as nr ops syscall_code f arg k).kernel.trace =
      k.trace ++ [Event.exit_message name (-1), Event.thread_exit] := by
  have hcall : call_syscall_handler as nr ops syscall_code f arg k =
      terminate_process ERROR f k :=
    call_syscall_handler_from_no_entry as ops (syscall_map nr) syscall_code f arg k h
  rw [hcall]
  exact ⟨rfl, rfl, rfl, _, rfl⟩

/-- C7 (witness): the number 999 under the numbering that counts from 0. -/
theorem call_syscall_handler_unregistered_witness :
    (∀ entry ∈ syscall_map standard_nr, entry.syscall_code ≠ 999) ∧
    (call_syscall_handler one_page_space standard_nr idle_operations 999 ⟨134512640, 0⟩
        (fun _ => 0) sample_kernel =
      terminate_process ERROR ⟨134512640, 0⟩ sample_kernel ∧
    (call_syscall_handler one_page_space standard_nr idle_operations 999 ⟨134512640, 0⟩
        (fun _ => 0) sample_kernel).frame = ⟨134512640, 0⟩ ∧
    (call_syscall_handler one_page_space standard_nr idle_operations 999 ⟨134512640, 0⟩
        (fun _ => 0) sample_kernel).exited = some (-1) ∧
    ∃ name, (call_syscall_handler one_page_space standard_nr idle_operations 999
        ⟨134512640, 0⟩ (fun _ => 0) sample_kernel).kernel.trace =
      sample_kernel.trace ++ [Event.exit_message name (-1), Event.thread_exit]) :=
  ⟨by decide,
    call_syscall_handler_unregistered one_page_space standard_nr idle_operations 999
      ⟨134512640, 0⟩ (fun _ => 0) sample_kernel (by decide)⟩

/-- C8 (the code at the failing input): `num_syscall_args` returns 1 for `SYS_HALT`, whose
operation `halt_system (void)` takes no argument. Its result is between 0 and 3 for every
system-call number, and when the thirteen numbers are pairwise distinct it is the declared
count for each of the other twelve. -/
theorem num_syscall_args_halt (nr : SyscallNr) :
    num_syscall_args nr nr.SYS_HALT = 1 ∧
    (∀ syscall_code, 0 ≤ num_syscall_args nr syscall_code ∧
      num_syscall_args nr syscall_code ≤ 3) ∧
    (nr.codes.Nodup →
      num_syscall_args nr nr.SYS_EXIT = 1 ∧ num_syscall_args nr nr.SYS_EXEC = 1 ∧
      num_syscall_args nr nr.SYS_WAIT = 1 ∧ num_syscall_args nr nr.SYS_REMOVE = 1 ∧
      num_syscall_args nr nr.SYS_OPEN = 1 ∧ num_syscall_args nr nr.SYS_FILESIZE = 1 ∧
      num_syscall_args nr nr.SYS_TELL = 1 ∧ num_syscall_args nr nr.SYS_CLOSE = 1 ∧
      num_syscall_args nr nr.SYS_CREATE = 2 ∧ num_syscall_args nr nr.SYS_SEEK = 2 ∧
      num_syscall_args nr nr.SYS_READ = 3 ∧ num_syscall_args nr nr.SYS_WRITE = 3) := by
  refine ⟨?_, num_syscall_args_range nr, ?_⟩
  · unfold num_syscall_args
    simp
  · intro hnr
    simp only [SyscallNr.codes, List.nodup_cons, List.mem_cons, List.mem_singleton, not_or,
      List.not_mem_nil, not_false_eq_true, List.nodup_nil, and_true] at hnr
    obtain ⟨⟨h01, h02, h03, h04, h05, h06, h07, h08, h09, h0a, h0b, h0c⟩,
      ⟨h12, h13, h14, h15, h16, h17, h18, h19, h1a, h1b, h1c⟩,
      ⟨h23, h24, h25, h26, h27, h28, h29, h2a, h2b, h2c⟩,
      ⟨h34, h35, h36, h37, h38, h39, h3a, h3b, h3c⟩,
      ⟨h45, h46, h47, h48, h49, h4a, h4b, h4c⟩,
      ⟨h56, h57, h58, h59, h5a, h5b, h5c⟩,
      ⟨h67, h68, h69, h6a, h6b, h6c⟩,
      ⟨h78, h79, h7a, h7b, h7c⟩,
      ⟨h89, h8a, h8b, h8c⟩,
      ⟨h9a, h9b, h9c⟩,
      ⟨hab, hac⟩,
      hbc⟩ := hnr
    unfold num_syscall_args
    refine ⟨by simp, by simp, by simp, by simp, by simp, by simp, by simp, by simp,
      ?_, ?_, ?_, ?_⟩
    · simp [Ne.symm h04, Ne.symm h14, Ne.symm h24, Ne.symm h34, h45, h46, h47, h4b, h4c]
    · simp [Ne.symm h0a, Ne.symm h1a, Ne.symm h2a, Ne.symm h3a, Ne.symm h5a, Ne.symm h6a,
        Ne.symm h7a, hab, hac]
    · simp [Ne.symm h08, Ne.symm h18, Ne.symm h28, Ne.symm h38, Ne.symm h58, Ne.symm h68,
        Ne.symm h78, h8b, h8c, Ne.symm h48, h8a]
    · simp [Ne.symm h09, Ne.symm h19, Ne.symm h29, Ne.symm h39, Ne.symm h59, Ne.symm h69,
        Ne.symm h79, h9b, h9c, Ne.symm h49, h9a]

/-! ## Usage counters -/

theorem report_syscall_metrics_from_congr (c c1 : Counters)
    (h : c1.syscall_usage_count = c.syscall_usage_count) (buffer : Nat → Int) (count : Int)
    (i : Nat) :
    report_syscall_metrics_from c1 buffer count i =
      report_syscall_metrics_from c buffer count i := by
  generalize hm : (count - i).toNat = m
  induction m generalizing i buffer with
  | zero =>
    conv_lhs => rw [report_syscall_metrics_from]
    conv_rhs => rw [report_syscall_metrics_from]
    rw [if_neg (by omega), if_neg (by omega)]
  | succ m ih =>
    conv_lhs => rw [report_syscall_metrics_from]
    conv_rhs => rw [report_syscall_metrics_from]
    rw [if_pos (by omega), if_pos (by omega), h]
    exact ih _ (i + 1) (by omega)

theorem track_syscall_usage_count (syscall_code : Int) (c : Counters) :
    (track_syscall_usage syscall_code c).syscall_usage_count = c.syscall_usage_count := by
  unfold track_syscall_usage
  split <;> rfl

theorem syscall_handler_usage_count (as : AddressSpace) (nr : SyscallNr) (ops : Operations)
    (arg : Nat → Int) (f : intr_frame) (c : Counters) (k : Kernel) :
    (syscall_handler as nr ops arg f c k).counters.syscall_usage_count =
      c.syscall_usage_count := by
  unfold syscall_handler
  split
  · rfl
  · split
    · rfl
    · dsimp only
      split <;> exact track_syscall_usage_count _ c

/-- C9 (the code at the failing inputs): a dispatch through `syscall_handler` never changes
what a later `report_syscall_metrics` writes, because the report reads
`syscall_usage_count` while the dispatch counts in `syscall_usage`: the array that is
reported is left as it was, and the one that is not reported is where the valid dispatch of a
number `n` from 0 to 101, once read from the stack, adds one at index `n`. -/
theorem report_syscall_metrics_ignores_dispatch (as : AddressSpace) (nr : SyscallNr)
    (ops : Operations) (arg : Nat → Int) (f : intr_frame) (c : Counters) (k : Kernel)
    (buffer : Option (Nat → Int)) (size : Int) :
    report_syscall_metrics (syscall_handler as nr ops arg f c k).counters buffer size =
      report_syscall_metrics c buffer size ∧
    (is_valid_pointer as f.esp = true → read_int as f.esp = some (as.int_at f.esp) →
      0 ≤ as.int_at f.esp → as.int_at f.esp ≤ 101 →
      (syscall_handler as nr ops arg f c k).counters.syscall_usage (as.int_at f.esp).toNat =
        c.syscall_usage (as.int_at f.esp).toNat + 1) := by
  constructor
  · have h := syscall_handler_usage_count as nr ops arg f c k
    unfold report_syscall_metrics
    cases buffer with
    | none => rfl
    | some b =>
      simp only
      split
      · rfl
      · rw [report_syscall_metrics_from_congr c _ h]
  · intro hesp hread h0 h1
    have hc : (syscall_handler as nr ops arg f c k).counters =
        track_syscall_usage (as.int_at f.esp) c := by
      unfold syscall_handler
      simp only [hesp, Bool.not_true, Bool.false_eq_true, if_false, hread]
      split <;> rfl
    rw [hc]
    unfold track_syscall_usage
    rw [if_pos ⟨h0, h1⟩]
    simp

/-! ## Descriptor-based file operations -/

theorem current_process_get_file_none (fd : Int) (t : thread)
    (h : ∀ pf ∈ t.file_list, pf.fd ≠ fd) : current_process_get_file fd t = none := by
  unfold current_process_get_file
  have hfind : t.file_list.find? (fun pf => pf.fd == fd) = none := by
    rw [List.find?_eq_none]
    intro pf hpf
    simpa using h pf hpf
  rw [hfind]

theorem fetch_file_with_lock_none (fd : Int) (k : Kernel)
    (h : ∀ pf ∈ k.cur.file_list, pf.fd ≠ fd) : fetch_file_with_lock fd k = (none, k) := by
  unfold fetch_file_with_lock
  rw [current_process_get_file_none fd k.cur h]

/-- C10: for a descriptor `fd` without an entry in the caller's descriptor table,
`get_file_size`, `get_file_position`, `read_from_file` (when `fd` is not 0) and
`write_to_file` (when `fd` is not 1) return the error value -1, which for the `unsigned`
result of `get_file_position` is -1 converted to `unsigned`, and `set_file_position` has no
effect; each leaves the kernel state as it found it, so that neither the lock nor a
filesystem operation is called. -/
theorem unowned_descriptor_rejected (env : Collaborators) (fd : Int) (buffer size : Nat)
    (position : Nat) (k : Kernel) (h : ∀ pf ∈ k.cur.file_list, pf.fd ≠ fd) :
    get_file_size env fd k = (-1, k) ∧
    get_file_position env fd k = (to_unsigned (-1), k) ∧
    to_int (get_file_position env fd k).1 = -1 ∧
    (fd ≠ 0 → read_from_file env fd buffer size k = (-1, k)) ∧
    (fd ≠ 1 → write_to_file env fd buffer size k = (-1, k)) ∧
    set_file_position fd position k = k := by
  have hf := fetch_file_with_lock_none fd k h
  have hpos : get_file_position env fd k = (to_unsigned (-1), k) := by
    unfold get_file_position
    rw [hf]
    rfl
  refine ⟨?_, hpos, ?_, ?_, ?_, ?_⟩
  · unfold get_file_size
    rw [hf]
    rfl
  · rw [hpos]
    show to_int (to_unsigned (-1)) = -1
    decide
  · intro h0
    unfold read_from_file
    rw [if_neg (by simpa [STDIN] using h0), hf]
    rfl
  · intro h1
    unfold write_to_file
    rw [if_neg (by simpa [STDOUT] using h1), hf]
    rfl
  · unfold set_file_position
    rw [hf]

/-- C10 (witness): descriptor 5 in a process that owns descriptor 2 only. -/
theorem unowned_descriptor_rejected_witness :
    (∀ pf ∈ sample_kernel.cur.file_list, pf.fd ≠ 5) ∧
    get_file_size quiet_collaborators 5 sample_kernel = (-1, sample_kernel) ∧
    get_file_position quiet_collaborators 5 sample_kernel =
      (to_unsigned (-1), sample_kernel) ∧
    to_int (get_file_position quiet_collaborators 5 sample_kernel).1 = -1 ∧
    ((5 : Int) ≠ 0 →
      read_from_file quiet_collaborators 5 134512656 16 sample_kernel =
        (-1, sample_kernel)) ∧
    ((5 : Int) ≠ 1 →
      write_to_file quiet_collaborators 5 134512656 16 sample_kernel =
        (-1, sample_kernel)) ∧
    set_file_position 5 0 sample_kernel = sample_kernel :=
  ⟨by decide,
    unowned_descriptor_rejected quiet_collaborators 5 134512656 16 0 sample_kernel
      (by decide)⟩

/-! ## Receive with capacity zero -/

/-- C13 (the code at the failing input): with capacity `size = 0` the bound `size - 1` of the
copy loop wraps to `4294967295`, so for a mailbox that holds a string of `len` non-zero bytes
and its NUL, `ipc_receive_message` copies all `len` message bytes to `buffer[0 .. len - 1]`
and writes the terminator to `buffer[len]`: every index written is at or above `size`, and
`len` bytes are copied where `size - 1` allows none. -/
theorem ipc_receive_message_capacity_zero (b : ipc_buffer) (len : Nat)
    (hbytes : ∀ j, j < len → b.data j ≠ 0) (hnul : b.data len = 0)
    (hlen : len < 4294967295) (hgate : 0 < b.sema) (buffer : Nat → Nat) :
    ∃ buf b2, ipc_receive_message buffer 0 b = some (buf, b2) ∧
      (∀ j, j < len → buf j = b.data j) ∧ buf len = 0 := by
  obtain ⟨buf, b2, hr, h1, h2, _⟩ := ipc_receive_message_spec b len hbytes hnul hgate buffer 0
  have hmin : min len ((0 + 4294967295) % 4294967296) = len := by
    simp only [Nat.min_def]
    split_ifs <;> omega
  rw [hmin] at h1 h2
  exact ⟨buf, b2, hr, h1, h2⟩

/-- C13 (witness): the mailbox holds "hello", the caller's buffer holds the byte 255
everywhere and is passed with capacity 0; six bytes of it are overwritten. -/
theorem ipc_receive_message_capacity_zero_witness :
    (∀ j, j < 5 → hello_mailbox.data j ≠ 0) ∧ hello_mailbox.data 5 = 0 ∧
    5 < 4294967295 ∧ 0 < hello_mailbox.sema ∧
    ∃ buf b2, ipc_receive_message (fun _ => 255) 0 hello_mailbox = some (buf, b2) ∧
      (∀ j, j < 5 → buf j = hello_mailbox.data j) ∧ buf 5 = 0 :=
  ⟨by decide, by decide, by decide, by decide,
    ipc_receive_message_capacity_zero hello_mailbox 5 (by decide) (by decide) (by decide)
      (by decide) (fun _ => 255)⟩

/-! ## Filesystem lock balance -/

theorem lock_walk_quiet (held : Nat) (calls : List Event)
    (h : ∀ e ∈ calls, e ≠ Event.lock_acquire ∧ e ≠ Event.lock_release) :
    lock_walk held calls = some held := by
  induction calls with
  | nil => rfl
  | cons e rest ih =>
    have he := h e (List.mem_cons_self _ _)
    have hrest := ih (fun x hx => h x (List.mem_cons_of_mem _ hx))
    cases e <;> first
      | exact absurd rfl he.1
      | exact absurd rfl he.2
      | (simp only [lock_walk]; exact hrest)

theorem lock_walk_append (held : Nat) (calls more : List Event) (mid : Nat)
    (h : lock_walk held calls = some mid) :
    lock_walk held (calls ++ more) = lock_walk mid more := by
  induction calls generalizing held with
  | nil =>
    simp only [lock_walk, Option.some.injEq] at h
    subst h
    rfl
  | cons e rest ih =>
    cases e <;> simp only [lock_walk, List.cons_append] at h ⊢ <;> first
      | exact ih _ h
      | (split at h
         · exact absurd h (by simp)
         · rename_i hne
           rw [if_neg hne]
           exact ih _ h)

/-- A step that adds no lock call to the trace is balanced. -/
theorem lock_balanced_of_quiet (k k1 : Kernel) (calls : List Event)
    (htrace : k1.trace = k.trace ++ calls)
    (h : ∀ e ∈ calls, e ≠ Event.lock_acquire ∧ e ≠ Event.lock_release) :
    lock_balanced k k1 :=
  ⟨calls, htrace, fun held => lock_walk_quiet held calls h⟩

/-- A step that adds one acquire, then calls other than lock calls, then one release, is
balanced. -/
theorem lock_balanced_of_bracket (k k1 : Kernel) (calls : List Event)
    (htrace : k1.trace = k.trace ++ (Event.lock_acquire :: (calls ++ [Event.lock_release])))
    (h : ∀ e ∈ calls, e ≠ Event.lock_acquire ∧ e ≠ Event.lock_release) :
    lock_balanced k k1 := by
  refine ⟨_, htrace, fun held => ?_⟩
  show lock_walk (held + 1) (calls ++ [Event.lock_release]) = some held
  rw [lock_walk_append (held + 1) calls _ (held + 1) (lock_walk_quiet (held + 1) calls h)]
  simp [lock_walk]

theorem read_console_from_trace (env : Collaborators) (buffer size i : Nat) (k : Kernel) :
    ∃ calls, (read_console_from env buffer size i k).trace = k.trace ++ calls ∧
      ∀ e ∈ calls, e ≠ Event.lock_acquire ∧ e ≠ Event.lock_release := by
  generalize h : size - i = n
  induction n generalizing i k with
  | zero =>
    rw [read_console_from, if_neg (by omega)]
    exact ⟨[], by simp, by simp⟩
  | succ n ih =>
    rw [read_console_from, if_pos (by omega)]
    obtain ⟨calls, h1, h2⟩ := ih (i + 1)
      ((k.log Event.input_getc).log
        (Event.store_byte ((buffer + i) % 4294967296) (env.input_getc k.trace % 256)))
      (by omega)
    refine ⟨Event.input_getc ::
      Event.store_byte ((buffer + i) % 4294967296) (env.input_getc k.trace % 256) :: calls,
      ?_, ?_⟩
    · rw [h1]
      simp [Kernel.log]
    · intro e he
      simp only [List.mem_cons] at he
      rcases he with rfl | rfl | he
      · exact ⟨by simp, by simp⟩
      · exact ⟨by simp, by simp⟩
      · exact h2 e he

theorem fetch_file_with_lock_cases (fd : Int) (k : Kernel) :
    fetch_file_with_lock fd k = (none, k) ∨
    ∃ file_ptr, fetch_file_with_lock fd k = (some file_ptr, k.log Event.lock_acquire) := by
  unfold fetch_file_with_lock
  cases current_process_get_file fd k.cur with
  | none => exact Or.inl rfl
  | some file_ptr => exact Or.inr ⟨file_ptr, rfl⟩

theorem lock_balanced_refl (k : Kernel) : lock_balanced k k :=
  lock_balanced_of_quiet k k [] (by simp) (by simp)

/-- C14: each of `create_file`, `delete_file`, `open_file`, `get_file_size`,
`read_from_file`, `write_to_file`, `set_file_position`, `get_file_position` and `close_file`
is balanced on the filesystem lock for every descriptor and every argument: along the calls
it adds to the trace each acquire has its one release and no release comes without an
acquire, so the lock is left as it was found. This covers the paths on which the descriptor lookup fails
and the console paths of descriptors 0 and 1, since the descriptor is arbitrary. -/
theorem filesys_lock_balanced (fs : Filesys) (env : Collaborators) (fd : Int)
    (filename initial_size buffer size position : Nat) (k : Kernel) :
    lock_balanced k (create_file fs filename initial_size k).2 ∧
    lock_balanced k (delete_file fs filename k).2 ∧
    lock_balanced k (open_file fs filename k).2 ∧
    lock_balanced k (get_file_size env fd k).2 ∧
    lock_balanced k (read_from_file env fd buffer size k).2 ∧
    lock_balanced k (write_to_file env fd buffer size k).2 ∧
    lock_balanced k (set_file_position fd position k) ∧
    lock_balanced k (get_file_position env fd k).2 ∧
    lock_balanced k (close_file fd k) := by
  refine ⟨?_, ?_, ?_, ?_, ?_, ?_, ?_, ?_, ?_⟩
  · exact lock_balanced_of_bracket k _ [Event.filesys_create filename initial_size]
      (by simp [create_file, Kernel.log]) (by simp)
  · exact lock_balanced_of_bracket k _ [Event.filesys_remove filename]
      (by simp [delete_file, Kernel.log]) (by simp)
  · refine lock_balanced_of_bracket k _ [Event.filesys_open filename] ?_ (by simp)
    unfold open_file
    simp only [Kernel.log]
    split <;> simp
  · unfold get_file_size
    rcases fetch_file_with_lock_cases fd k with h | ⟨file_ptr, h⟩
    · rw [h]
      exact lock_balanced_refl k
    · rw [h]
      exact lock_balanced_of_bracket k _ [Event.file_length file_ptr]
        (by simp [unlock_file_lock, Kernel.log]) (by simp)
  · unfold read_from_file
    split
    · obtain ⟨calls, h1, h2⟩ := read_console_from_trace env buffer size 0 k
      exact lock_balanced_of_quiet k _ calls h1 h2
    · rcases fetch_file_with_lock_cases fd k with h | ⟨file_ptr, h⟩
      · rw [h]
        exact lock_balanced_refl k
      · rw [h]
        exact lock_balanced_of_bracket k _ [Event.file_read file_ptr buffer size]
          (by simp [unlock_file_lock, Kernel.log]) (by simp)
  · unfold write_to_file
    split
    · exact lock_balanced_of_quiet k _ [Event.putbuf buffer size] (by simp [Kernel.log])
        (by simp)
    · rcases fetch_file_with_lock_cases fd k with h | ⟨file_ptr, h⟩
      · rw [h]
        exact lock_balanced_refl k
      · rw [h]
        exact lock_balanced_of_bracket k _ [Event.file_write file_ptr buffer size]
          (by simp [unlock_file_lock, Kernel.log]) (by simp)
  · unfold set_file_position
    rcases fetch_file_with_lock_cases fd k with h | ⟨file_ptr, h⟩
    · rw [h]
      exact lock_balanced_refl k
    · rw [h]
      exact lock_balanced_of_bracket k _ [Event.file_seek file_ptr position]
        (by simp [unlock_file_lock, Kernel.log]) (by simp)
  · unfold get_file_position
    rcases fetch_file_with_lock_cases fd k with h | ⟨file_ptr, h⟩
    · rw [h]
      exact lock_balanced_refl k
    · rw [h]
      exact lock_balanced_of_bracket k _ [Event.file_tell file_ptr]
        (by simp [unlock_file_lock, Kernel.log]) (by simp)
  · unfold close_file current_process_close_file
    split
    · exact lock_balanced_of_bracket k _
        (k.cur.file_list.map (fun pf => Event.file_close pf.file))
        (by simp [Kernel.log]) (by simp)
    · simp only [Kernel.log]
      split
      · rename_i pf _
        exact lock_balanced_of_bracket k _ [Event.file_close pf.file]
          (by simp) (by simp)
      · exact lock_balanced_of_bracket k _ [] (by simp) (by simp)

/-! ## `execute_program` -/

theorem find_store_load (pid load : Int) (children : List child_process) :
    (store_load pid load children).find? (fun cp => cp.pid == pid) =
      (children.find? (fun cp => cp.pid == pid)).map (fun cp => { cp with load := load }) := by
  induction children with
  | nil => rfl
  | cons cp rest ih =>
    by_cases h : cp.pid = pid
    · simp [store_load, List.find?_cons, h]
    · simp [store_load, List.find?_cons, h, ih]

theorem get_child_process_pid (pid : Int) (t : thread) (cp : child_process)
    (h : get_child_process pid t = some cp) : cp.pid = pid ∧ cp ∈ t.child_list := by
  unfold get_child_process at h
  exact ⟨by simpa using List.find?_some h, List.mem_of_find?_eq_some h⟩

/-- The value that `process_execute` hands to its caller is its `bool` result, 1 or 0. -/
theorem process_execute_flag (env : ProcessEnv) (file_name : Nat) (k : Kernel)
    (process_id : Int) (k1 : Kernel)
    (h : process_execute env file_name k = some (process_id, k1)) :
    process_id = 0 ∨ process_id = 1 := by
  unfold process_execute at h
  split at h
  · simp only [Option.some.injEq, Prod.mk.injEq] at h
    exact Or.inl h.1.symm
  · dsimp only at h
    split at h
    · split at h
      · simp only [Option.some.injEq, Prod.mk.injEq] at h
        exact Or.inr h.1.symm
      · exact absurd h (by simp)
    · simp only [Option.some.injEq, Prod.mk.injEq] at h
      exact Or.inl h.1.symm

/-- After the conditional wait the caller's child list still holds the record for the id,
with the load status the caller goes on to test. -/
theorem get_child_process_await_load (env : ProcessEnv) (pid : Int) (k : Kernel)
    (cp cp1 : child_process) (k2 : Kernel) (hget : get_child_process pid k.cur = some cp)
    (hwait : await_load env cp k = some (cp1, k2)) :
    get_child_process pid k2.cur = some cp1 ∧ cp1.pid = pid ∧
    k2.cur.child_list.map (fun c => c.pid) = k.cur.child_list.map (fun c => c.pid) := by
  have hpid := (get_child_process_pid pid k.cur cp hget).1
  unfold await_load at hwait
  split at hwait
  · split at hwait
    · exact absurd hwait (by simp)
    · rename_i load hload
      simp only [Option.some.injEq, Prod.mk.injEq] at hwait
      obtain ⟨h1, h2⟩ := hwait
      subst h1 h2
      refine ⟨?_, hpid, ?_⟩
      · unfold get_child_process
        show (store_load cp.pid load k.cur.child_list).find? _ = _
        rw [hpid, find_store_load]
        unfold get_child_process at hget
        rw [hget]
        simp [hpid]
      · show (store_load cp.pid load k.cur.child_list).map _ = _
        generalize k.cur.child_list = children
        induction children with
        | nil => rfl
        | cons c rest ih =>
          unfold store_load
          split
          · rfl
          · simp only [List.map_cons, ih]
  · simp only [Option.some.injEq, Prod.mk.injEq] at hwait
    obtain ⟨h1, h2⟩ := hwait
    subst h1 h2
    exact ⟨hget, hpid, rfl⟩

/-- Once the record that the lookup finds is erased from a child list with pairwise distinct
ids, the lookup for the id finds nothing. -/
theorem get_child_process_erase (pid : Int) (k : Kernel) (cp : child_process)
    (hget : get_child_process pid k.cur = some cp)
    (hnodup : (k.cur.child_list.map (fun c => c.pid)).Nodup) :
    get_child_process pid (remove_child_process cp k).cur = none := by
  obtain ⟨hpid, hmem⟩ := get_child_process_pid pid k.cur cp hget
  unfold get_child_process remove_child_process
  rw [List.find?_eq_none]
  intro x hx
  have hl : k.cur.child_list.Nodup := List.Nodup.of_map _ hnodup
  have hx2 := (List.Nodup.mem_erase_iff hl).1 hx
  intro hxpid
  have hxp : x.pid = pid := by simpa using hxpid
  have : x = cp := List.inj_on_of_nodup_map hnodup hx2.2 hmem (by rw [hxp, hpid])
  exact hx2.1 this

/-- The branches of `execute_program` in terms of the value `process_id` that
`process_execute` handed back, which is its `bool` result and not the id of the new thread:
-1 when the caller has no child record for that value; -1 with the record erased when the
record for that value is found with load status `LOAD_FAIL`; that value otherwise. -/
theorem execute_program_branches (env : ProcessEnv) (cmd_line : Nat) (k : Kernel)
    (process_id : Int) (k1 : Kernel)
    (hcreate : process_execute env cmd_line k = some (process_id, k1)) :
    (get_child_process process_id k1.cur = none →
      execute_program env cmd_line k = some (-1, k1)) ∧
    (∀ cp cp1 k2, get_child_process process_id k1.cur = some cp →
      await_load env cp k1 = some (cp1, k2) →
      (cp1.load = LOAD_FAIL →
        execute_program env cmd_line k = some (-1, remove_child_process cp1 k2) ∧
        (remove_child_process cp1 k2).cur.child_list = k2.cur.child_list.erase cp1 ∧
        ((k1.cur.child_list.map (fun c => c.pid)).Nodup →
          get_child_process process_id (remove_child_process cp1 k2).cur = none)) ∧
      (cp1.load ≠ LOAD_FAIL →
        execute_program env cmd_line k = some (process_id, k2) ∧
        get_child_process process_id k2.cur = some cp1)) := by
  constructor
  · intro hnone
    unfold execute_program
    rw [hcreate]
    simp only [hnone]
    rfl
  · intro cp cp1 k2 hget hwait
    obtain ⟨hget2, _, hpids⟩ := get_child_process_await_load env process_id k1 cp cp1 k2 hget hwait
    constructor
    · intro hfail
      refine ⟨?_, rfl, ?_⟩
      · unfold execute_program
        rw [hcreate]
        simp only [hget, hwait, hfail, if_true]
        rfl
      · intro hnodup
        exact get_child_process_erase process_id k2 cp1 hget2 (by rw [hpids]; exact hnodup)
    · intro hok
      refine ⟨?_, hget2⟩
      unfold execute_program
      rw [hcreate]
      simp only [hget, hwait, hok, if_false]

/-- C11 (the code at the failing input): when process creation succeeds and the thread
service has registered the record `cp` of the new child under its thread id `tid`, the
caller having no record for the value 1, `execute_program` returns -1 and leaves the child
list as the thread service left it, the record of the child included, whatever the load
status of the child: it looks up the `bool` result 1 of `process_execute` instead of the id
of the new process. A child that loaded is reported as a failure, and the record of a child
whose load failed is not removed. -/
theorem execute_program_looks_up_flag (env : ProcessEnv) (cmd_line : Nat) (k : Kernel)
    (fn_copy : Nat) (tid : Int) (t1 : thread) (cp : child_process)
    (hpage : env.palloc_get_page k.trace = some fn_copy)
    (hcreate : env.thread_create
      ((k.log Event.palloc_get_page).log (Event.strlcpy fn_copy cmd_line)).trace
      cmd_line fn_copy k.cur = (tid, t1))
    (htid : tid ≠ 0)
    (hstart : env.start_signalled
      (((k.log Event.palloc_get_page).log (Event.strlcpy fn_copy cmd_line)).trace ++
        [Event.thread_create cmd_line fn_copy]) = true)
    (hchild : get_child_process tid t1 = some cp)
    (hflag : get_child_process 1 t1 = none) :
    ∃ k1, execute_program env cmd_line k = some (-1, k1) ∧ k1.cur = t1 ∧
      get_child_process tid k1.cur = some cp ∧ tid ≠ 1 := by
  have hne : tid ≠ 1 := by
    rintro rfl
    rw [hflag] at hchild
    exact absurd hchild (by simp)
  have hexec : process_execute env cmd_line k =
      some (1, ({ cur := t1,
                  trace := ((k.log Event.palloc_get_page).log
                    (Event.strlcpy fn_copy cmd_line)).trace ++
                    [Event.thread_create cmd_line fn_copy] } : Kernel).log
                Event.sema_down_start) := by
    unfold process_execute
    simp only [hpage]
    show (if (env.thread_create _ cmd_line fn_copy
        ((k.log Event.palloc_get_page).log (Event.strlcpy fn_copy cmd_line)).cur).1 ≠ 0
      then _ else _) = _
    have hcur : ((k.log Event.palloc_get_page).log (Event.strlcpy fn_copy cmd_line)).cur =
        k.cur := rfl
    rw [hcur, hcreate]
    simp only [ne_eq, htid, not_false_eq_true, if_true, hstart]
  refine ⟨({ cur := t1,
             trace := ((k.log Event.palloc_get_page).log
               (Event.strlcpy fn_copy cmd_line)).trace ++
               [Event.thread_create cmd_line fn_copy] } : Kernel).log
           Event.sema_down_start, ?_, rfl, hchild, hne⟩
  unfold execute_program
  rw [hexec]
  have hlook : get_child_process 1
      (({ cur := t1,
          trace := ((k.log Event.palloc_get_page).log
            (Event.strlcpy fn_copy cmd_line)).trace ++
            [Event.thread_create cmd_line fn_copy] } : Kernel).log
        Event.sema_down_start).cur = none := hflag
  simp only [hlook]
  rfl

/-- C11 (witness): the thread service registers the new child under the id 3, and the child
loads; `execute_program` returns -1 and the record stays in the list. -/
theorem execute_program_looks_up_flag_witness :
    third_thread_env.palloc_get_page sample_kernel.trace = some 3221229568 ∧
    third_thread_env.thread_create
      ((sample_kernel.log Event.palloc_get_page).log
        (Event.strlcpy 3221229568 134512656)).trace
      134512656 3221229568 sample_kernel.cur =
      (3, { sample_kernel.cur with child_list := [{ pid := 3, status := 0, load := 1 }] }) ∧
    (3 : Int) ≠ 0 ∧
    third_thread_env.start_signalled
      (((sample_kernel.log Event.palloc_get_page).log
        (Event.strlcpy 3221229568 134512656)).trace ++
        [Event.thread_create 134512656 3221229568]) = true ∧
    get_child_process 3
      { sample_kernel.cur with child_list := [{ pid := 3, status := 0, load := 1 }] } =
      some { pid := 3, status := 0, load := 1 } ∧
    get_child_process 1
      { sample_kernel.cur with child_list := [{ pid := 3, status := 0, load := 1 }] } =
      none ∧
    ∃ k1, execute_program third_thread_env 134512656 sample_kernel = some (-1, k1) ∧
      k1.cur =
        { sample_kernel.cur with child_list := [{ pid := 3, status := 0, load := 1 }] } ∧
      get_child_process 3 k1.cur = some { pid := 3, status := 0, load := 1 } ∧
      (3 : Int) ≠ 1 :=
  ⟨by decide, by decide, by decide, by decide, by decide, by decide,
    execute_program_looks_up_flag third_thread_env 134512656 sample_kernel 3221229568 3
      { sample_kernel.cur with child_list := [{ pid := 3, status := 0, load := 1 }] }
      { pid := 3, status := 0, load := 1 } (by decide) (by decide) (by decide) (by decide)
      (by decide) (by decide)⟩

/-! ## Loader -/

end Pintos
